import Mathlib

/-!
# lei3d render system: cascade planner and frame orchestration

A shallow embedding of `engine/rendering/RenderSystem.cpp`,
`engine/rendering/Shader.cpp`, `engine/rendering/Model.cpp` and
`engine/components/ColorSource.cpp`.

Conventions of the embedding.

* `float` values are exact rationals (`ℚ`); the two sentinels
  `std::numeric_limits<float>::max()` and `lowest()` are the rational numbers
  `FLT_MAX` and `FLT_LOWEST`.
* `glm` is an external library: the functions the render system calls
  (`perspective`, `radians`, `inverse`, `lookAt`, `ortho`) are the fields of a
  parameter record `Glm`.  Vector and matrix products are written out, in the
  column-major convention of `glm`.
* Code with undefined behaviour (reading `v[i]` past the end of a
  `std::vector`, dereferencing a null pointer) returns `none`.
* OpenGL calls are recorded, in program order, as a list of `GLCall` values.
-/

namespace lei3d

/-! ## Scalars, vectors, matrices -/

/-- Largest finite `float`: `(2 - 2^(-23)) * 2^127`. -/
def FLT_MAX : ℚ := 340282346638528859811704183484516925440

/-- Most negative finite `float`, `std::numeric_limits<float>::lowest()`. -/
def FLT_LOWEST : ℚ := -340282346638528859811704183484516925440

/-- Three-component vector, `glm::vec3`. -/
structure Vec3 where
  x : ℚ
  y : ℚ
  z : ℚ
deriving DecidableEq, Repr

/-- Four-component vector, `glm::vec4`. -/
structure Vec4 where
  x : ℚ
  y : ℚ
  z : ℚ
  w : ℚ
deriving DecidableEq, Repr

/-- Column-major 4x4 matrix, `glm::mat4`: `c0 .. c3` are the columns. -/
structure Mat4 where
  c0 : Vec4
  c1 : Vec4
  c2 : Vec4
  c3 : Vec4
deriving DecidableEq, Repr

/-- Componentwise sum, `glm::vec3 + glm::vec3`. -/
def Vec3.add (a b : Vec3) : Vec3 := ⟨a.x + b.x, a.y + b.y, a.z + b.z⟩

/-- Componentwise difference, `glm::vec3 - glm::vec3`. -/
def Vec3.sub (a b : Vec3) : Vec3 := ⟨a.x - b.x, a.y - b.y, a.z - b.z⟩

/-- Division of every component by a scalar, `glm::vec3 /= s`. -/
def Vec3.divScalar (a : Vec3) (s : ℚ) : Vec3 := ⟨a.x / s, a.y / s, a.z / s⟩

/-- Truncating conversion `glm::vec3(glm::vec4)`. -/
def Vec4.toVec3 (c : Vec4) : Vec3 := ⟨c.x, c.y, c.z⟩

/-- Componentwise sum, `glm::vec4 + glm::vec4`. -/
def Vec4.add (a b : Vec4) : Vec4 := ⟨a.x + b.x, a.y + b.y, a.z + b.z, a.w + b.w⟩

/-- Scaling of every component, `glm::vec4 * s`. -/
def Vec4.scale (a : Vec4) (s : ℚ) : Vec4 := ⟨a.x * s, a.y * s, a.z * s, a.w * s⟩

/-- Division of every component by a scalar, `glm::vec4 / s`. -/
def Vec4.divScalar (a : Vec4) (s : ℚ) : Vec4 := ⟨a.x / s, a.y / s, a.z / s, a.w / s⟩

/-- Matrix-vector product `m * v` of `glm`: the combination of the columns of
`m` weighted by the components of `v`. -/
def Mat4.mulVec (m : Mat4) (v : Vec4) : Vec4 :=
  ((m.c0.scale v.x).add (m.c1.scale v.y)).add ((m.c2.scale v.z).add (m.c3.scale v.w))

/-- Matrix product `a * b` of `glm`: column `j` of the result is `a * b.cj`. -/
def Mat4.mul (a b : Mat4) : Mat4 :=
  ⟨a.mulVec b.c0, a.mulVec b.c1, a.mulVec b.c2, a.mulVec b.c3⟩

/-- Conversion `glm::mat4(glm::mat3(m))`: the upper-left 3x3 block of `m`
inside the identity matrix. -/
def Mat4.stripTranslation (m : Mat4) : Mat4 :=
  ⟨⟨m.c0.x, m.c0.y, m.c0.z, 0⟩, ⟨m.c1.x, m.c1.y, m.c1.z, 0⟩,
   ⟨m.c2.x, m.c2.y, m.c2.z, 0⟩, ⟨0, 0, 0, 1⟩⟩

/-- Identity matrix, `glm::identity<glm::mat4>()`. -/
def Mat4.identity : Mat4 :=
  ⟨⟨1, 0, 0, 0⟩, ⟨0, 1, 0, 0⟩, ⟨0, 0, 1, 0⟩, ⟨0, 0, 0, 1⟩⟩

/-- The `glm` functions called by the render system.  They belong to an
external library and are parameters of the embedding. -/
structure Glm where
  /-- Holds `glm::radians(degrees)`. -/
  radians : ℚ → ℚ
  /-- Holds `glm::perspective(fovy, aspect, zNear, zFar)`. -/
  perspective : ℚ → ℚ → ℚ → ℚ → Mat4
  /-- Holds `glm::inverse(m)`. -/
  inverse : Mat4 → Mat4
  /-- Holds `glm::lookAt(eye, center, up)`. -/
  lookAt : Vec3 → Vec3 → Vec3 → Mat4
  /-- Holds `glm::ortho(left, right, bottom, top, zNear, zFar)`. -/
  ortho : ℚ → ℚ → ℚ → ℚ → ℚ → ℚ → Mat4

/-! ## Scene data read by the cascade planner -/

/-- Modelled from the spec: the class `Camera` (`core/Camera.hpp`) is not among
the source files.  The spec gives it a view transform and projection
parameters (field of view, near, far); the fields are the values of the
getters the render system calls, `GetView`, `GetProj`, `GetPosition`,
`GetFOV`, `GetNearPlane`, `GetFarPlane`, which only read. -/
structure Camera where
  view : Mat4
  proj : Mat4
  position : Vec3
  fov : ℚ
  nearPlane : ℚ
  farPlane : ℚ
deriving DecidableEq, Repr

/-- Modelled from the spec: the class `DirectionalLight` is not among the
source files.  The spec gives it a direction, a color, an intensity, the list
of cascade split distances and the derived sequence of light-space transforms;
these are the members the render system reads and writes. -/
structure DirectionalLight where
  direction : Vec3
  color : Vec3
  intensity : ℚ
  cascadeLevels : List ℚ
  lightSpaceMatrices : List Mat4
deriving DecidableEq, Repr

/-- Modelled from the spec: the class `Shader` is declared in `Shader.hpp`,
which is not among the source files; `Shader.cpp` uses its member
`m_ShaderID`, the name of the linked program. -/
structure Shader where
  m_ShaderID : Nat
deriving DecidableEq, Repr

/-- The data members of `RenderSystem` (`RenderSystem.hpp`); the `unsigned int`
members are OpenGL object names. -/
structure RenderSystem where
  FBO : Nat
  rawTexture : Nat
  saturationMask : Nat
  depthStencilTexture : Nat
  finalTexture : Nat
  shadowFBO : Nat
  shadowResolution : Nat
  shadowDepth : Nat
  dummyVAO : Nat
  scwidth : Int
  scheight : Int
  frustum_fitting_factor : ℚ
  forwardShader : Shader
  postprocessShader : Shader
  shadowCSMShader : Shader
deriving DecidableEq, Repr

/-! ## Cascade planner -/

/-- The corner loop of `getFrustumCornersWS`: `x`, `y`, `z` range over `0, 1`
in this nesting order, `c = invVP * (2x-1, 2y-1, 2z-1, 1)` and `c / c.w` is
pushed. -/
def getFrustumCornersWS (g : Glm) (projection view : Mat4) : List Vec4 :=
  let invVP := g.inverse (projection.mul view)
  (List.range 2).flatMap fun x =>
    (List.range 2).flatMap fun y =>
      (List.range 2).map fun z =>
        let c := invVP.mulVec ⟨2 * (x : ℚ) - 1, 2 * (y : ℚ) - 1, 2 * (z : ℚ) - 1, 1⟩
        c.divScalar c.w

/-- The function `std::min(a, b)`: `b` when `b < a`, else `a`. -/
def stdMin (a b : ℚ) : ℚ := if b < a then b else a

/-- The function `std::max(a, b)`: `b` when `a < b`, else `a`. -/
def stdMax (a b : ℚ) : ℚ := if a < b then b else a

/-- The six bounds `pminX, pmaxX, pminY, pmaxY, pminZ, pmaxZ` of
`getLightSpaceMatrix`. -/
structure Box where
  minX : ℚ
  maxX : ℚ
  minY : ℚ
  maxY : ℚ
  minZ : ℚ
  maxZ : ℚ
deriving DecidableEq, Repr

/-- The body of the bounds loop of `getLightSpaceMatrix` (lines 305-311): the
corner is taken to light-view space and each bound is updated with `std::min`
or `std::max`. -/
def boundsStep (lightView : Mat4) (b : Box) (c : Vec4) : Box :=
  let trf := lightView.mulVec c
  { minX := stdMin b.minX trf.x, maxX := stdMax b.maxX trf.x,
    minY := stdMin b.minY trf.y, maxY := stdMax b.maxY trf.y,
    minZ := stdMin b.minZ trf.z, maxZ := stdMax b.maxZ trf.z }

/-- Lines 297-312 of `getLightSpaceMatrix`: the six bounds start at the
sentinels `max()` / `lowest()` and the loop body runs over the corners. -/
def lightViewBounds (lightView : Mat4) (corners : List Vec4) : Box :=
  corners.foldl (boundsStep lightView)
    ⟨FLT_MAX, FLT_LOWEST, FLT_MAX, FLT_LOWEST, FLT_MAX, FLT_LOWEST⟩

/-- Lines 314-329 of `getLightSpaceMatrix`: the Z padding by
`frustum_fitting_factor`. -/
def padZ (F : ℚ) (b : Box) : Box :=
  let pminZ := if b.minZ < 0 then b.minZ * F else b.minZ / F
  let pmaxZ := if b.maxZ < 0 then b.maxZ / F else b.maxZ * F
  { b with minZ := pminZ, maxZ := pmaxZ }

/-- Lines 286-287 of `getLightSpaceMatrix`: the corners of the frustum slice
`[nearPlane, farPlane]`. -/
def sliceCorners (g : Glm) (rs : RenderSystem) (nearPlane farPlane : ℚ)
    (camera : Camera) : List Vec4 :=
  let projection :=
    g.perspective (g.radians camera.fov) ((rs.scwidth : ℚ) / (rs.scheight : ℚ))
      nearPlane farPlane
  getFrustumCornersWS g projection camera.view

/-- Lines 289-296 of `getLightSpaceMatrix`: the mean of the corners and the
light view looking at it. -/
def sliceLightView (g : Glm) (light : DirectionalLight) (corners : List Vec4) : Mat4 :=
  let center := (corners.foldl (fun (acc : Vec3) c => acc.add c.toVec3)
    (⟨0, 0, 0⟩ : Vec3)).divScalar (corners.length : ℚ)
  g.lookAt (center.sub light.direction) center ⟨0, 1, 0⟩

/-- The six arguments that `getLightSpaceMatrix` passes to `glm::ortho`. -/
def orthoBox (g : Glm) (rs : RenderSystem) (light : DirectionalLight)
    (nearPlane farPlane : ℚ) (camera : Camera) : Box :=
  let corners := sliceCorners g rs nearPlane farPlane camera
  padZ rs.frustum_fitting_factor (lightViewBounds (sliceLightView g light corners) corners)

/-- The function `RenderSystem::getLightSpaceMatrix`. -/
def getLightSpaceMatrix (g : Glm) (rs : RenderSystem) (light : DirectionalLight)
    (nearPlane farPlane : ℚ) (camera : Camera) : Mat4 :=
  let corners := sliceCorners g rs nearPlane farPlane camera
  let lightView := sliceLightView g light corners
  let b := orthoBox g rs light nearPlane farPlane camera
  let lightProj := g.ortho b.minX b.maxX b.minY b.maxY b.minZ b.maxZ
  lightProj.mul lightView

/-- One iteration of the loop of `getLightSpaceMatrices`: the matrix pushed for
index `i`.  `cascadeLevels[j]` past the end of the vector is undefined. -/
def lightSpaceMatrixAt (g : Glm) (rs : RenderSystem) (light : DirectionalLight)
    (camera : Camera) (i : Nat) : Option Mat4 :=
  if i = 0 then
    (light.cascadeLevels[i]?).map fun s =>
      getLightSpaceMatrix g rs light camera.nearPlane s camera
  else if i < light.cascadeLevels.length then
    (light.cascadeLevels[i - 1]?).bind fun a =>
      (light.cascadeLevels[i]?).map fun b =>
        getLightSpaceMatrix g rs light a b camera
  else
    (light.cascadeLevels[i - 1]?).map fun a =>
      getLightSpaceMatrix g rs light a camera.farPlane camera

/-- The function `RenderSystem::getLightSpaceMatrices`: `i` runs over
`0 .. cascadeLevels.size()` and each matrix is pushed at the back. -/
def getLightSpaceMatrices (g : Glm) (rs : RenderSystem) (light : DirectionalLight)
    (camera : Camera) : Option (List Mat4) :=
  (List.range (light.cascadeLevels.length + 1)).foldlM
    (fun matrices i =>
      (lightSpaceMatrixAt g rs light camera i).map fun m => matrices ++ [m])
    []

/-! ## OpenGL calls -/

/-- Framebuffer targets `GL_DRAW_FRAMEBUFFER`, `GL_READ_FRAMEBUFFER`,
`GL_FRAMEBUFFER`. -/
inductive FramebufferTarget where
  | drawFramebuffer
  | readFramebuffer
  | framebuffer
deriving DecidableEq, Repr

/-- Buffers and attachment points: `GL_NONE`, `GL_COLOR_ATTACHMENTn`,
`GL_DEPTH_ATTACHMENT`, `GL_DEPTH_STENCIL_ATTACHMENT`. -/
inductive Attachment where
  | none
  | color (n : Nat)
  | depth
  | depthStencil
deriving DecidableEq, Repr

/-- Texture targets `GL_TEXTURE_2D`, `GL_TEXTURE_2D_ARRAY`,
`GL_TEXTURE_CUBE_MAP`. -/
inductive TextureTarget where
  | texture2D
  | texture2DArray
  | textureCubeMap
deriving DecidableEq, Repr

/-- Internal formats and pixel formats used by the repository. -/
inductive TexFormat where
  | rgb32f
  | r32f
  | depth32fStencil8
  | rgba
  | depthComponent32f
  | rgb
  | red
  | depthStencil
  | depthComponent
deriving DecidableEq, Repr

/-- Pixel data types `GL_FLOAT`, `GL_FLOAT_32_UNSIGNED_INT_24_8_REV`,
`GL_UNSIGNED_BYTE`. -/
inductive PixelType where
  | float
  | float32UnsignedInt248Rev
  | unsignedByte
deriving DecidableEq, Repr

/-- Texture parameters set by the repository, with their values. -/
inductive TexParam where
  | minFilterNearest
  | magFilterNearest
  | minFilterLinearMipmapLinear
  | magFilterLinear
  | wrapSRepeat
  | wrapTRepeat
deriving DecidableEq, Repr

/-- Filters for `glBlitFramebuffer`: `GL_NEAREST`, `GL_LINEAR`. -/
inductive BlitFilter where
  | nearest
  | linear
deriving DecidableEq, Repr

/-- Faces for `glCullFace`. -/
inductive Face where
  | front
  | back
deriving DecidableEq, Repr

/-- Depth comparison functions `GL_LESS`, `GL_LEQUAL`. -/
inductive DepthFunc where
  | less
  | lequal
deriving DecidableEq, Repr

/-- Capabilities for `glEnable` / `glDisable`. -/
inductive Capability where
  | depthTest
deriving DecidableEq, Repr

/-- The flags of `ModelInstance::Draw`. -/
inductive RenderFlag where
  | None
  | BindImages
deriving DecidableEq, Repr

/-- A value stored by a `glUniform*` call. -/
inductive UniformValue where
  | mat4 (m : Mat4)
  | vec3 (v : Vec3)
  | float (f : ℚ)
  | int (i : Int)
deriving DecidableEq, Repr

/-- Modelled from the spec: the component `ModelInstance` is not among the
source files; the spec calls a drawable an opaque handle to mesh and material
data with a draw operation. -/
structure ModelInstance where
  handle : Nat
deriving DecidableEq, Repr

/-- One call into OpenGL.  The last constructor is modelled from the spec:
`ModelInstance::Draw(shader, flags, bindLocation)` is not among the source
files; the spec describes it as "a draw operation parameterized by a bound
shader and a texture-binding base slot", so one call of it is recorded as one
entry and changes nothing in the scene. -/
inductive GLCall where
  | genVertexArrays (name : Nat)
  | genFramebuffers (name : Nat)
  | genTextures (name : Nat)
  | bindFramebuffer (target : FramebufferTarget) (fbo : Nat)
  | drawBuffer (buf : Attachment)
  | drawBuffers (bufs : List Attachment)
  | readBuffer (buf : Attachment)
  | clearColor (r g b a : ℚ)
  | clear (color depth : Bool)
  | depthMask (flag : Bool)
  | enable (cap : Capability)
  | disable (cap : Capability)
  | depthFunc (f : DepthFunc)
  | viewport (x y width height : Int)
  | cullFace (face : Face)
  | useProgram (program : Nat)
  | uniform (program : Nat) (name : String) (value : UniformValue)
  | activeTexture (unit : Nat)
  | bindTexture (target : TextureTarget) (texture : Nat)
  | texImage2D (target : TextureTarget) (internal : Option TexFormat) (width height : Int)
      (format : Option TexFormat) (type : PixelType)
  | texImage3D (target : TextureTarget) (internal : TexFormat) (width height depth : Int)
      (format : TexFormat) (type : PixelType)
  | texParameteri (target : TextureTarget) (param : TexParam)
  | generateMipmap (target : TextureTarget)
  | framebufferTexture2D (attachment : Attachment) (texture : Nat)
  | framebufferTexture (attachment : Attachment) (texture : Nat)
  | bindVertexArray (vao : Nat)
  | drawArrays (first count : Nat)
  | blitFramebuffer (srcX0 srcY0 srcX1 srcY1 dstX0 dstY0 dstX1 dstY1 : Int)
      (color depth : Bool) (filter : BlitFilter)
  | objectDraw (obj : ModelInstance) (shader : Shader) (flags : RenderFlag) (bindLocation : Nat)
deriving DecidableEq, Repr

/-! ## Shader (`Shader.cpp`) -/

/-- The method `Shader::bind`: `glUseProgram(m_ShaderID)`. -/
def Shader.bind (s : Shader) : List GLCall := [GLCall.useProgram s.m_ShaderID]

/-- The method `Shader::unbind`: `glUseProgram(0)`. -/
def Shader.unbind (_s : Shader) : List GLCall := [GLCall.useProgram 0]

/-- The method `Shader::setUniformMat4`: bind, `glUniformMatrix4fv` at the
location of `name`, unbind. -/
def Shader.setUniformMat4 (s : Shader) (name : String) (matrix : Mat4) : List GLCall :=
  s.bind ++ [GLCall.uniform s.m_ShaderID name (UniformValue.mat4 matrix)] ++ s.unbind

/-- The method `Shader::setInt`: bind, `glUniform1i` at the location of `name`,
unbind. -/
def Shader.setInt (s : Shader) (name : String) (value : Int) : List GLCall :=
  s.bind ++ [GLCall.uniform s.m_ShaderID name (UniformValue.int value)] ++ s.unbind

/-- Modelled from the spec: `Shader::setVec3` is called by the lighting pass
but is not defined in `Shader.cpp`; it is a set-uniform operation "by name for
scalar, vector, matrix, and integer values" and is given the shape of its two
siblings `setUniformMat4` and `setInt` (bind, set, unbind). -/
def Shader.setVec3 (s : Shader) (name : String) (value : Vec3) : List GLCall :=
  s.bind ++ [GLCall.uniform s.m_ShaderID name (UniformValue.vec3 value)] ++ s.unbind

/-- Modelled from the spec: `Shader::setFloat` is called by the lighting pass
but is not defined in `Shader.cpp`; it is given the shape of its two siblings
`setUniformMat4` and `setInt` (bind, set, unbind). -/
def Shader.setFloat (s : Shader) (name : String) (value : ℚ) : List GLCall :=
  s.bind ++ [GLCall.uniform s.m_ShaderID name (UniformValue.float value)] ++ s.unbind

/-! ## Scene -/

/-- Modelled from the spec: the component `SkyBox` is not among the source
files; these are the members the environment pass reads. -/
structure SkyBox where
  skyboxShader : Shader
  skyboxVAO : Nat
  cubeMapTexture : Nat
deriving DecidableEq, Repr

/-- The component `ColorSource` (`ColorSource.hpp`).  `position` is
`m_Entity.m_Transform.position`, the value `GetPosition()` returns. -/
structure ColorSource where
  position : Vec3
  radius : ℚ
  active : Bool
deriving DecidableEq, Repr

/-- The method `ColorSource::Init`. -/
def ColorSource.Init (c : ColorSource) (new_radius : ℚ) : ColorSource :=
  { c with radius := new_radius, active := false }

/-- The method `ColorSource::SetActive(bool)`. -/
def ColorSource.SetActiveTo (c : ColorSource) (new_active : Bool) : ColorSource :=
  { c with active := new_active }

/-- The method `ColorSource::SetActive()`, which calls `SetActive(true)`. -/
def ColorSource.SetActive (c : ColorSource) : ColorSource := c.SetActiveTo true

/-- The method `ColorSource::GetRadius`. -/
def ColorSource.GetRadius (c : ColorSource) : ℚ := c.radius

/-- The method `ColorSource::GetPosition`. -/
def ColorSource.GetPosition (c : ColorSource) : Vec3 := c.position

/-- Modelled from the spec: the class `Entity` is not among the source files.
The spec has the core "enumerate entities by capability"; an entity is the
results of `GetComponent<ModelInstance>()`, `GetComponent<SkyBox>()` and
`GetComponent<ColorSource>()`, `none` for a null pointer. -/
structure Entity where
  modelInstance : Option ModelInstance
  skyBox : Option SkyBox
  colorSource : Option ColorSource
deriving DecidableEq, Repr

/-- Modelled from the spec: the class `Scene` (`core/Scene.hpp`) is not among
the source files.  These are the members `draw` reads: the entities in order
and the pointer to the at most one directional light (`none` when
`m_DirectionalLight` is null). -/
structure Scene where
  m_Entities : List Entity
  m_DirectionalLight : Option DirectionalLight
deriving DecidableEq, Repr

/-- Modelled from the spec: the class `SceneView` is not among the source
files; the spec has it resolve the active camera, `ActiveCamera(scene)`. -/
structure SceneView where
  ActiveCamera : Scene → Camera

/-! ## Render passes (`RenderSystem.cpp`) -/

/-- The uniform name `base + "[" + std::to_string(i) + "]" + suffix`. -/
def indexedName (base : String) (i : Nat) (suffix : String) : String :=
  base ++ "[" ++ toString i ++ "]" ++ suffix

/-- The loop `for i < ms.size(): shader.setUniformMat4("lightSpaceMatrices[i]", ms[i])`
shared by the shadow pass and the lighting pass. -/
def uploadLightSpaceMatrices (shader : Shader) (ms : List Mat4) : List GLCall :=
  ms.enum.flatMap fun im => shader.setUniformMat4 (indexedName "lightSpaceMatrices" im.1 "") im.2

/-- The function `RenderSystem::genShadowPass`.  Returns the light with its
`lightSpaceMatrices` overwritten, and the calls issued. -/
def genShadowPass (g : Glm) (rs : RenderSystem) (objects : List ModelInstance)
    (light : Option DirectionalLight) (camera : Camera) :
    Option (DirectionalLight × List GLCall) :=
  light.bind fun l =>
    (getLightSpaceMatrices g rs l camera).map fun ms =>
      let l2 := { l with lightSpaceMatrices := ms }
      (l2,
        rs.shadowCSMShader.bind ++
        [GLCall.bindFramebuffer FramebufferTarget.drawFramebuffer rs.shadowFBO,
         GLCall.viewport 0 0 rs.shadowResolution rs.shadowResolution,
         GLCall.cullFace Face.front,
         GLCall.depthMask true,
         GLCall.enable Capability.depthTest,
         GLCall.clear false true] ++
        uploadLightSpaceMatrices rs.shadowCSMShader l2.lightSpaceMatrices ++
        objects.map (fun obj => GLCall.objectDraw obj rs.shadowCSMShader RenderFlag.None 0) ++
        [GLCall.cullFace Face.back,
         GLCall.viewport 0 0 rs.scwidth rs.scheight])

/-- The color-source loop of `lightingPass` (lines 163-168).  The loop body
reads `cs->GetPosition()` and `cs->GetRadius()`; `cs` is not declared in
`lightingPass`, so the color source it names is a parameter here. -/
def uploadColorSources (shader : Shader) (activeColorSources : List ColorSource)
    (cs : ColorSource) : List GLCall :=
  ((List.range activeColorSources.length).flatMap fun i =>
    shader.setVec3 (indexedName "colorSources" i ".position") cs.GetPosition ++
    shader.setFloat (indexedName "colorSources" i ".radius") cs.GetRadius) ++
  shader.setInt "numColorSources" (activeColorSources.length : Int)

/-- The function `RenderSystem::lightingPass`, called with the four arguments
`draw` gives it. -/
def lightingPass (rs : RenderSystem) (objects : List ModelInstance)
    (light : Option DirectionalLight) (camera : Camera)
    (activeColorSources : List ColorSource) (cs : ColorSource) : Option (List GLCall) :=
  light.map fun l =>
    rs.forwardShader.bind ++
    [GLCall.bindFramebuffer FramebufferTarget.drawFramebuffer rs.FBO,
     GLCall.drawBuffers [Attachment.color 0, Attachment.color 1],
     GLCall.depthMask true,
     GLCall.enable Capability.depthTest,
     GLCall.clearColor 0 0 0 1,
     GLCall.clear true true] ++
    rs.forwardShader.setUniformMat4 "projection" camera.proj ++
    rs.forwardShader.setUniformMat4 "view" camera.view ++
    rs.forwardShader.setVec3 "camPos" camera.position ++
    rs.forwardShader.setVec3 "dirLight.direction" l.direction ++
    rs.forwardShader.setVec3 "dirLight.color" l.color ++
    rs.forwardShader.setFloat "dirLight.intensity" l.intensity ++
    rs.forwardShader.setFloat "dirLight.farPlane" camera.farPlane ++
    (l.cascadeLevels.enum.flatMap fun id =>
      rs.forwardShader.setFloat (indexedName "dirLight.cascadeDistances" id.1 "") id.2) ++
    uploadLightSpaceMatrices rs.forwardShader l.lightSpaceMatrices ++
    uploadColorSources rs.forwardShader activeColorSources cs ++
    rs.forwardShader.setInt "shadowDepth" 1 ++
    [GLCall.activeTexture 1,
     GLCall.bindTexture TextureTarget.texture2DArray rs.shadowDepth] ++
    objects.map (fun obj => GLCall.objectDraw obj rs.forwardShader RenderFlag.BindImages 2) ++
    [GLCall.depthMask false,
     GLCall.disable Capability.depthTest]

/-- The function `RenderSystem::environmentPass`. -/
def environmentPass (g : Glm) (rs : RenderSystem) (skyBox : SkyBox) (camera : Camera) :
    List GLCall :=
  let view := camera.view.stripTranslation
  let projection :=
    g.perspective (g.radians 45) ((rs.scwidth : ℚ) / (rs.scheight : ℚ)) (1 / 10) 400
  [GLCall.enable Capability.depthTest,
   GLCall.depthFunc DepthFunc.lequal] ++
  skyBox.skyboxShader.bind ++
  skyBox.skyboxShader.setUniformMat4 "view" view ++
  skyBox.skyboxShader.setUniformMat4 "projection" projection ++
  skyBox.skyboxShader.setUniformMat4 "model" Mat4.identity ++
  skyBox.skyboxShader.setInt "skyboxCubemap" 0 ++
  [GLCall.bindVertexArray skyBox.skyboxVAO,
   GLCall.activeTexture 0,
   GLCall.bindTexture TextureTarget.textureCubeMap skyBox.cubeMapTexture,
   GLCall.drawArrays 0 36,
   GLCall.bindVertexArray 0,
   GLCall.depthFunc DepthFunc.less,
   GLCall.disable Capability.depthTest]

/-- The function `RenderSystem::postprocessPass` (the composite pass). -/
def postprocessPass (rs : RenderSystem) : List GLCall :=
  rs.postprocessShader.bind ++
  [GLCall.drawBuffer (Attachment.color 2),
   GLCall.activeTexture 0,
   GLCall.bindTexture TextureTarget.texture2D rs.rawTexture,
   GLCall.activeTexture 1,
   GLCall.bindTexture TextureTarget.texture2D rs.saturationMask] ++
  rs.postprocessShader.setInt "RawFinalImage" 0 ++
  rs.postprocessShader.setInt "SaturationMask" 1 ++
  [GLCall.bindVertexArray rs.dummyVAO,
   GLCall.drawArrays 0 3,
   GLCall.bindVertexArray 0,
   GLCall.bindFramebuffer FramebufferTarget.drawFramebuffer 0,
   GLCall.bindFramebuffer FramebufferTarget.readFramebuffer rs.FBO,
   GLCall.readBuffer (Attachment.color 2),
   GLCall.blitFramebuffer 0 0 rs.scwidth rs.scheight 0 0 rs.scwidth rs.scheight
     true false BlitFilter.linear]

/-! ## Frame orchestration (`RenderSystem::draw`) -/

/-- The three locals `skyBox`, `modelEntities`, `colorSources` that the entity
loop of `draw` fills. -/
structure Gathered where
  skyBox : Option SkyBox
  modelEntities : List ModelInstance
  colorSources : List ColorSource
deriving DecidableEq, Repr

/-- One iteration of the entity loop of `draw` (lines 102-116). -/
def gatherEntity (acc : Gathered) (entity : Entity) : Gathered :=
  let acc1 :=
    match entity.modelInstance with
    | some mi => { acc with modelEntities := acc.modelEntities ++ [mi] }
    | none => acc
  let acc2 :=
    match entity.skyBox with
    | some sb => { acc1 with skyBox := some sb }
    | none => acc1
  match entity.colorSource with
  | some cs => if cs.active then { acc2 with colorSources := acc2.colorSources ++ [cs] } else acc2
  | none => acc2

/-- The entity loop of `draw` (lines 99-116). -/
def gather (scene : Scene) : Gathered :=
  scene.m_Entities.foldl gatherEntity ⟨none, [], []⟩

/-- The four passes of a frame. -/
inductive Pass where
  | shadow
  | lighting
  | environment
  | postprocess
deriving DecidableEq, Repr

/-- One invocation of a pass by `draw`: which pass, and the calls it issued. -/
structure PassRun where
  pass : Pass
  calls : List GLCall
deriving DecidableEq, Repr

/-- What one call of `draw` leaves behind: the scene (the directional light is
written through its pointer), the calls issued before the first pass, and the
pass invocations in order. -/
structure Frame where
  scene : Scene
  prelude : List GLCall
  passes : List PassRun
deriving DecidableEq, Repr

/-- The function `RenderSystem::draw`.  `cs` is the color source named by the
undeclared identifier in `lightingPass`. -/
def draw (g : Glm) (rs : RenderSystem) (scene : Scene) (view : SceneView)
    (cs : ColorSource) : Option Frame :=
  let camera := view.ActiveCamera scene
  let gathered := gather scene
  let dirLight := scene.m_DirectionalLight
  (genShadowPass g rs gathered.modelEntities dirLight camera).bind fun shadow =>
    (lightingPass rs gathered.modelEntities (some shadow.1) camera gathered.colorSources cs).map
      fun lightingCalls =>
        let environment :=
          match gathered.skyBox with
          | some skyBox => [PassRun.mk Pass.environment (environmentPass g rs skyBox camera)]
          | none => []
        { scene := { scene with m_DirectionalLight := some shadow.1 },
          prelude :=
            [GLCall.bindFramebuffer FramebufferTarget.drawFramebuffer rs.FBO,
             GLCall.drawBuffer (Attachment.color 2),
             GLCall.clearColor (1 / 5) (4 / 5) (9 / 10) 1,
             GLCall.clear true false],
          passes :=
            [PassRun.mk Pass.shadow shadow.2, PassRun.mk Pass.lighting lightingCalls] ++
            environment ++ [PassRun.mk Pass.postprocess (postprocessPass rs)] }

/-! ## Render targets (`RenderSystem::initialize`) -/

/-- The object names that OpenGL hands out during `initialize` (`glGen*`) and
the three shader programs built from the files under `./data/shaders`. -/
structure GLNames where
  dummyVAO : Nat
  FBO : Nat
  rawTexture : Nat
  saturationMask : Nat
  depthStencilTexture : Nat
  finalTexture : Nat
  shadowFBO : Nat
  shadowDepth : Nat
  forwardShader : Shader
  postprocessShader : Shader
  shadowCSMShader : Shader
deriving DecidableEq, Repr

/-- The `glTexParameteri` pair that follows every allocation in `initialize`. -/
def nearestFilter (target : TextureTarget) : List GLCall :=
  [GLCall.texParameteri target TexParam.minFilterNearest,
   GLCall.texParameteri target TexParam.magFilterNearest]

/-- The function `RenderSystem::initialize` (`initialize` is a reserved word of
Lean, hence the longer name): the render system afterwards and the calls
issued. -/
def initRenderSystem (rs : RenderSystem) (names : GLNames) (width height : Int) :
    RenderSystem × List GLCall :=
  let rs1 : RenderSystem :=
    { rs with
      scwidth := width, scheight := height,
      forwardShader := names.forwardShader,
      postprocessShader := names.postprocessShader,
      shadowCSMShader := names.shadowCSMShader,
      dummyVAO := names.dummyVAO, FBO := names.FBO,
      rawTexture := names.rawTexture, saturationMask := names.saturationMask,
      depthStencilTexture := names.depthStencilTexture, finalTexture := names.finalTexture,
      shadowFBO := names.shadowFBO, shadowDepth := names.shadowDepth }
  (rs1,
    [GLCall.genVertexArrays rs1.dummyVAO,
     GLCall.genFramebuffers rs1.FBO,
     GLCall.bindFramebuffer FramebufferTarget.drawFramebuffer rs1.FBO,
     GLCall.genTextures rs1.rawTexture,
     GLCall.genTextures rs1.saturationMask,
     GLCall.genTextures rs1.depthStencilTexture,
     GLCall.genTextures rs1.finalTexture,
     GLCall.bindTexture TextureTarget.texture2D rs1.rawTexture,
     GLCall.texImage2D TextureTarget.texture2D (some TexFormat.rgb32f) width height
       (some TexFormat.rgb) PixelType.float] ++
    nearestFilter TextureTarget.texture2D ++
    [GLCall.framebufferTexture2D (Attachment.color 0) rs1.rawTexture,
     GLCall.bindTexture TextureTarget.texture2D rs1.saturationMask,
     GLCall.texImage2D TextureTarget.texture2D (some TexFormat.r32f) width height
       (some TexFormat.red) PixelType.float] ++
    nearestFilter TextureTarget.texture2D ++
    [GLCall.framebufferTexture2D (Attachment.color 1) rs1.saturationMask,
     GLCall.bindTexture TextureTarget.texture2D rs1.depthStencilTexture,
     GLCall.texImage2D TextureTarget.texture2D (some TexFormat.depth32fStencil8) width height
       (some TexFormat.depthStencil) PixelType.float32UnsignedInt248Rev] ++
    nearestFilter TextureTarget.texture2D ++
    [GLCall.framebufferTexture2D Attachment.depthStencil rs1.depthStencilTexture,
     GLCall.bindTexture TextureTarget.texture2D rs1.finalTexture,
     GLCall.texImage2D TextureTarget.texture2D (some TexFormat.rgba) width height
       (some TexFormat.rgb) PixelType.float] ++
    nearestFilter TextureTarget.texture2D ++
    [GLCall.framebufferTexture2D (Attachment.color 2) rs1.finalTexture,
     GLCall.genFramebuffers rs1.shadowFBO,
     GLCall.bindFramebuffer FramebufferTarget.drawFramebuffer rs1.shadowFBO,
     GLCall.genTextures rs1.shadowDepth,
     GLCall.bindTexture TextureTarget.texture2DArray rs1.shadowDepth,
     GLCall.texImage3D TextureTarget.texture2DArray TexFormat.depthComponent32f
       rs1.shadowResolution rs1.shadowResolution 4 TexFormat.depthComponent PixelType.float] ++
    nearestFilter TextureTarget.texture2DArray ++
    [GLCall.framebufferTexture Attachment.depth rs1.shadowDepth,
     GLCall.drawBuffer Attachment.none,
     GLCall.readBuffer Attachment.none,
     GLCall.bindFramebuffer FramebufferTarget.drawFramebuffer 0])

/-- The layer counts of the texture arrays that a call sequence allocates: the
`depth` argument of each `glTexImage3D(GL_TEXTURE_2D_ARRAY, ...)`. -/
def arrayLayerCounts (calls : List GLCall) : List Int :=
  calls.filterMap fun c =>
    match c with
    | GLCall.texImage3D TextureTarget.texture2DArray _ _ _ depth _ _ => some depth
    | _ => none


/-- The uniforms that a call sequence sets, in order: name and value of every
`glUniform*` call. -/
def uniformsSet (calls : List GLCall) : List (String × UniformValue) :=
  calls.filterMap fun c =>
    match c with
    | GLCall.uniform _ name value => some (name, value)
    | _ => none

/-! ## Material loading (`Model.cpp`) -/

/-- The texture types that `loadMaterials` asks for. -/
inductive aiTextureType where
  | DIFFUSE
  | METALNESS
  | DIFFUSE_ROUGHNESS
  | AMBIENT_OCCLUSION
  | NORMALS
  | HEIGHT
deriving DecidableEq, Repr

/-- What `Model.cpp` reads of an assimp material: its name, the results of
`Get(AI_MATKEY_...)` (`none` when the call does not return `AI_SUCCESS`), and
for each texture type the paths of its textures in index order
(`GetTextureCount(type)` is the length, `GetTexture(type, 0, &str)` the head). -/
structure aiMaterial where
  name : String
  baseColor : Option Vec3
  colorDiffuse : Option Vec3
  metallicFactor : Option ℚ
  specularFactor : Option ℚ
  roughnessFactor : Option ℚ
  glossinessFactor : Option ℚ
  texturePaths : aiTextureType → List String

/-- The result of `stbi_load` on a file that decodes. -/
structure Image where
  width : Int
  height : Int
  nrComponents : Int
deriving DecidableEq, Repr

/-- Modelled from the spec: the struct `Texture` is not among the source
files; `Model.cpp` uses its members `id` (GL texture name), `type`, `path`. -/
structure Texture where
  id : Nat
  type : String
  path : String
deriving DecidableEq, Repr

/-- Modelled from the spec: the struct `Material` is not among the source
files; these are the members `loadMaterials` writes.  A texture pointer is
`none` when null. -/
structure Material where
  m_Albedo : Vec3
  m_Metallic : ℚ
  m_Roughness : ℚ
  m_AlbedoTexture : Option Texture
  m_MetallicTexture : Option Texture
  m_RoughnessTexture : Option Texture
  m_AmbientTexture : Option Texture
  m_NormalMap : Option Texture
  m_BumpMap : Option Texture
  m_UseAlbedoMap : Bool
  m_UseMetallicMap : Bool
  m_UseRoughnessMap : Bool
  m_UseAmbientMap : Bool
  m_UseNormalMap : Bool
  m_UseBumpMap : Bool
deriving DecidableEq, Repr

/-- Modelled from the spec: the class `Model` is declared in `Model.hpp`,
which is not among the source files.  The state that material loading reads
and writes: the members `m_Directory`, `textures`, `materials` of `Model`,
the next texture name `glGenTextures` hands out, the GL calls issued and the
lines logged (`LEI_WARN`, `std::cout`). -/
structure Model where
  m_Directory : String
  textures : List Texture
  materials : List Material
  nextTextureName : Nat
  calls : List GLCall
  log : List String
deriving DecidableEq, Repr

/-- The assimp function `aiTextureTypeToString`, used in a log line only. -/
def aiTextureTypeToString : aiTextureType → String
  | aiTextureType.DIFFUSE => "Diffuse"
  | aiTextureType.METALNESS => "Metalness"
  | aiTextureType.DIFFUSE_ROUGHNESS => "DiffuseRoughness"
  | aiTextureType.AMBIENT_OCCLUSION => "AmbientOcclusion"
  | aiTextureType.NORMALS => "Normals"
  | aiTextureType.HEIGHT => "Height"

/-- The local `format` of `TextureFromFile`, chosen from `nrComponents`; `none`
when no branch assigns it. -/
def formatOfComponents (nrComponents : Int) : Option TexFormat :=
  if nrComponents = 1 then some TexFormat.red
  else if nrComponents = 3 then some TexFormat.rgb
  else if nrComponents = 4 then some TexFormat.rgba
  else none

/-- The function `TextureFromFile(path, directory)`.  `stbi_load` is the
image decoder, `none` for a file that fails to load.  Returns `textureID` and
the model state with the calls and log lines added. -/
def TextureFromFile (stbi_load : String → Option Image) (path : String) (directory : String)
    (st : Model) : Nat × Model :=
  let filename := directory ++ "/" ++ path
  let textureID := st.nextTextureName
  let st1 := { st with nextTextureName := st.nextTextureName + 1,
                       calls := st.calls ++ [GLCall.genTextures textureID] }
  match stbi_load filename with
  | some data =>
    (textureID,
      { st1 with calls := st1.calls ++
          [GLCall.bindTexture TextureTarget.texture2D textureID,
           GLCall.texImage2D TextureTarget.texture2D (formatOfComponents data.nrComponents)
             data.width data.height (formatOfComponents data.nrComponents)
             PixelType.unsignedByte,
           GLCall.generateMipmap TextureTarget.texture2D,
           GLCall.texParameteri TextureTarget.texture2D TexParam.wrapSRepeat,
           GLCall.texParameteri TextureTarget.texture2D TexParam.wrapTRepeat,
           GLCall.texParameteri TextureTarget.texture2D TexParam.minFilterLinearMipmapLinear,
           GLCall.texParameteri TextureTarget.texture2D TexParam.magFilterLinear] })
  | none =>
    (textureID, { st1 with log := st1.log ++ ["Texture failed to load at path: " ++ path] })

/-- The search loop of `loadMaterialTexture` (lines 153-161): every loaded
texture with the same path is assigned to `texture` in turn, so the last match
remains; `none` when `skip` stays false. -/
def findLoadedTexture (textures : List Texture) (str : String) : Option Texture :=
  textures.foldl (fun found tex => if str = tex.path then some tex else found) none

/-- The function `Model::loadMaterialTexture`.  Returns the texture pointer
(`none` for `nullptr`) and the model state. -/
def loadMaterialTexture (stbi_load : String → Option Image) (st : Model) (mat : aiMaterial)
    (type : aiTextureType) (typeName : String) : Option Texture × Model :=
  match mat.texturePaths type with
  | [] => (none, st)
  | str :: rest =>
    let st1 :=
      if 1 < (str :: rest).length then
        { st with log := st.log ++
            ["Found more than 1 texture for type " ++ aiTextureTypeToString type ++
              " in material " ++ mat.name] }
      else st
    match findLoadedTexture st1.textures str with
    | some texture => (some texture, st1)
    | none =>
      let loaded := TextureFromFile stbi_load str st1.m_Directory st1
      let texture : Texture := { id := loaded.1, type := typeName, path := str }
      (some texture, { loaded.2 with textures := loaded.2.textures ++ [texture] })

/-- The body of the loop of `Model::loadMaterials` for one assimp material;
`newMaterial` is the value of `new Material()`. -/
def loadMaterial (stbi_load : String → Option Image) (newMaterial : Material) (st : Model)
    (aimaterial : aiMaterial) : Model :=
  let m1 :=
    match aimaterial.baseColor with
    | some color => { newMaterial with m_Albedo := color }
    | none => newMaterial
  let m2 :=
    match aimaterial.colorDiffuse with
    | some color => { m1 with m_Albedo := color }
    | none => m1
  let m3 :=
    match aimaterial.metallicFactor with
    | some v => { m2 with m_Metallic := v }
    | none =>
      match aimaterial.specularFactor with
      | some v => { m2 with m_Metallic := v }
      | none => m2
  let m4 :=
    match aimaterial.roughnessFactor with
    | some v => { m3 with m_Roughness := v }
    | none =>
      match aimaterial.glossinessFactor with
      | some v => { m3 with m_Roughness := 1 - v }
      | none => m3
  let albedo := loadMaterialTexture stbi_load st aimaterial aiTextureType.DIFFUSE "texture_diffuse"
  let metallic :=
    loadMaterialTexture stbi_load albedo.2 aimaterial aiTextureType.METALNESS "texture_metallic"
  let roughness :=
    loadMaterialTexture stbi_load metallic.2 aimaterial aiTextureType.DIFFUSE_ROUGHNESS
      "texture_roughness"
  let ambient :=
    loadMaterialTexture stbi_load roughness.2 aimaterial aiTextureType.AMBIENT_OCCLUSION
      "texture_ao"
  let normal :=
    loadMaterialTexture stbi_load ambient.2 aimaterial aiTextureType.NORMALS "texture_normal"
  let bump :=
    loadMaterialTexture stbi_load normal.2 aimaterial aiTextureType.HEIGHT "texture_bump"
  let m5 : Material :=
    { m4 with
      m_AlbedoTexture := albedo.1, m_MetallicTexture := metallic.1,
      m_RoughnessTexture := roughness.1, m_AmbientTexture := ambient.1,
      m_NormalMap := normal.1, m_BumpMap := bump.1,
      m_UseAlbedoMap := albedo.1.isSome, m_UseMetallicMap := metallic.1.isSome,
      m_UseRoughnessMap := roughness.1.isSome, m_UseAmbientMap := ambient.1.isSome,
      m_UseNormalMap := normal.1.isSome, m_UseBumpMap := bump.1.isSome }
  { bump.2 with materials := bump.2.materials ++ [m5] }

/-- The function `Model::loadMaterials`: the loop over `scene->mMaterials`. -/
def loadMaterials (stbi_load : String → Option Image) (newMaterial : Material) (st : Model)
    (mMaterials : List aiMaterial) : Model :=
  mMaterials.foldl (loadMaterial stbi_load newMaterial) st


/-- The six `m_Use...Map` flags of a material, in the order in which
`loadMaterials` assigns them. -/
def Material.useFlags (m : Material) : List Bool :=
  [m.m_UseAlbedoMap, m.m_UseMetallicMap, m.m_UseRoughnessMap, m.m_UseAmbientMap,
   m.m_UseNormalMap, m.m_UseBumpMap]

/-- For each of the six slots, in the same order, whether the assimp material
names at least one texture of the slot's type. -/
def aiMaterial.hasTextures (mat : aiMaterial) : List Bool :=
  [aiTextureType.DIFFUSE, aiTextureType.METALNESS, aiTextureType.DIFFUSE_ROUGHNESS,
   aiTextureType.AMBIENT_OCCLUSION, aiTextureType.NORMALS, aiTextureType.HEIGHT].map
    fun t => decide (1 ≤ (mat.texturePaths t).length)

/-! ## OpenGL state

The part of the OpenGL context that the passes set and rely on, and how each
recorded call changes it. -/

/-- The context state followed through a frame: viewport, culled face, depth
write mask, depth test switch, depth comparison, and the program in use. -/
structure GLState where
  viewport : Int × Int × Int × Int
  cullFace : Face
  depthMask : Bool
  depthTest : Bool
  depthFunc : DepthFunc
  program : Nat
deriving DecidableEq, Repr

/-- The effect on the context of one call of `ModelInstance::Draw`, which is
not among the source files: a parameter of the state semantics. -/
abbrev DrawEffect := ModelInstance → Shader → RenderFlag → Nat → GLState → GLState

/-- The context after one call.  Calls that touch none of the followed state
(buffer clears, texture and framebuffer bindings, uniform stores, draws of
bound vertex arrays) leave it as it is. -/
def GLState.apply (effect : DrawEffect) (s : GLState) : GLCall → GLState
  | GLCall.viewport x y width height => { s with viewport := (x, y, width, height) }
  | GLCall.cullFace face => { s with cullFace := face }
  | GLCall.depthMask flag => { s with depthMask := flag }
  | GLCall.enable Capability.depthTest => { s with depthTest := true }
  | GLCall.disable Capability.depthTest => { s with depthTest := false }
  | GLCall.depthFunc f => { s with depthFunc := f }
  | GLCall.useProgram program => { s with program := program }
  | GLCall.objectDraw obj shader flags bindLocation => effect obj shader flags bindLocation s
  | _ => s

/-- The context after a sequence of calls. -/
def GLState.run (effect : DrawEffect) (s : GLState) (calls : List GLCall) : GLState :=
  calls.foldl (GLState.apply effect) s

/-- The contexts in which the calls selected by `p` are issued: for each such
call of the sequence, in order, the context just before it. -/
def statesAt (effect : DrawEffect) (p : GLCall → Bool) : GLState → List GLCall → List GLState
  | _, [] => []
  | s, c :: cs =>
    if p c then s :: statesAt effect p (s.apply effect c) cs
    else statesAt effect p (s.apply effect c) cs

/-- Whether a call is an object draw, `ModelInstance::Draw`. -/
def GLCall.isObjectDraw : GLCall → Bool
  | GLCall.objectDraw _ _ _ _ => true
  | _ => false

/-- Whether a call is `glDrawArrays(GL_TRIANGLES, 0, 36)`, the cube draw of the
environment pass. -/
def GLCall.isCubeDraw : GLCall → Bool
  | GLCall.drawArrays first count => first = 0 && count = 36
  | _ => false

/-- The calls of a frame up to the end of the last invocation of pass `p`
(`through = true`) or up to the start of the first invocation of pass `p`
(`through = false`), from the first call of `draw`. -/
def Frame.callsUpTo (frame : Frame) (p : Pass) (through : Bool) : List GLCall :=
  frame.prelude ++
  ((frame.passes.takeWhile fun r => r.pass ≠ p).flatMap PassRun.calls) ++
  (if through then
    ((frame.passes.filter fun r => r.pass = p).flatMap PassRun.calls)
   else [])

/-- Whether a call only selects a program or stores a uniform, as the calls
issued by the `Shader` methods do. -/
def GLCall.isShaderCall : GLCall → Bool
  | GLCall.useProgram _ => true
  | GLCall.uniform _ _ _ => true
  | _ => false

/-! ## Specification-side definitions

The slice bounds and the padding rule as the specification words them, to be
compared with the code above. -/

/-- Near bound of slice `i` as specified: the camera near distance for slice
`0`, else `split[i-1]`. -/
def specSliceNear (near : ℚ) (split : List ℚ) (i : Nat) : ℚ :=
  if i = 0 then near else (split[i - 1]?).getD 0

/-- Far bound of slice `i` as specified: `split[i]` for `i < K`, the camera far
distance for the last slice `i = K`. -/
def specSliceFar (far : ℚ) (split : List ℚ) (i : Nat) : ℚ :=
  if i < split.length then (split[i]?).getD 0 else far

/-- Padding of the lower Z bound as specified: `z * F` if `z < 0`, else `z / F`. -/
def specPadMin (F z : ℚ) : ℚ := if z < 0 then z * F else z / F

/-- Padding of the upper Z bound as specified: `z / F` if `z < 0`, else `z * F`. -/
def specPadMax (F z : ℚ) : ℚ := if z < 0 then z / F else z * F

/-- A coordinate in the range of finite `float` values. -/
def InFloatRange (q : ℚ) : Prop := FLT_LOWEST ≤ q ∧ q ≤ FLT_MAX

/-- A vector whose `x`, `y`, `z` are in the range of finite `float` values. -/
def Vec4.InFloatRange (v : Vec4) : Prop :=
  lei3d.InFloatRange v.x ∧ lei3d.InFloatRange v.y ∧ lei3d.InFloatRange v.z

/-- The color-source uniforms as specified for a maximum count `M`: position
and radius of the first `min(n, M)` sources at indices `0 .. min(n, M) - 1`,
then `numColorSources = min(n, M)`. -/
def specColorSourceUniforms (M : Nat) (sources : List ColorSource) :
    List (String × UniformValue) :=
  ((sources.take M).enum.flatMap fun is =>
    [(indexedName "colorSources" is.1 ".position", UniformValue.vec3 is.2.GetPosition),
     (indexedName "colorSources" is.1 ".radius", UniformValue.float is.2.GetRadius)]) ++
  [("numColorSources", UniformValue.int ((min sources.length M : Nat) : Int))]

/-! ## Sample inputs -/

/-- A concrete value of the library parameter, at which the definitions are
evaluated in the closed examples below (every general theorem holds for all
`Glm`): `ortho` and `perspective` follow the `glm` formulas, with the tangent
of the half angle replaced by the half angle; `lookAt` only translates. -/
def sampleGlm : Glm where
  radians := fun d => d * 355 / (113 * 180)
  perspective := fun fovy aspect n f =>
    ⟨⟨1 / (aspect * (fovy / 2)), 0, 0, 0⟩, ⟨0, 1 / (fovy / 2), 0, 0⟩,
     ⟨0, 0, -(f + n) / (f - n), -1⟩, ⟨0, 0, -(2 * f * n) / (f - n), 0⟩⟩
  inverse := fun m => m
  lookAt := fun eye _ _ => ⟨⟨1, 0, 0, 0⟩, ⟨0, 1, 0, 0⟩, ⟨0, 0, 1, 0⟩, ⟨-eye.x, -eye.y, -eye.z, 1⟩⟩
  ortho := fun l r b t n f =>
    ⟨⟨2 / (r - l), 0, 0, 0⟩, ⟨0, 2 / (t - b), 0, 0⟩, ⟨0, 0, -2 / (f - n), 0⟩,
     ⟨-(r + l) / (r - l), -(t + b) / (t - b), -(f + n) / (f - n), 1⟩⟩

/-- A default-constructed render system: shadow resolution 2048 and fitting
factor 10 as in `RenderSystem.hpp`, output size 1280 x 720. -/
def sampleRenderSystem : RenderSystem where
  FBO := 1
  rawTexture := 1
  saturationMask := 2
  depthStencilTexture := 3
  finalTexture := 4
  shadowFBO := 2
  shadowResolution := 2048
  shadowDepth := 5
  dummyVAO := 1
  scwidth := 1280
  scheight := 720
  frustum_fitting_factor := 10
  forwardShader := ⟨1⟩
  postprocessShader := ⟨2⟩
  shadowCSMShader := ⟨3⟩

/-- A camera with near distance 0.1 and far distance 400. -/
def sampleCamera : Camera where
  view := Mat4.identity
  proj := Mat4.identity
  position := ⟨0, 0, 0⟩
  fov := 45
  nearPlane := 1 / 10
  farPlane := 400

/-- A directional light with the given cascade split distances. -/
def sampleLight (splits : List ℚ) : DirectionalLight where
  direction := ⟨1, -1, 0⟩
  color := ⟨1, 1, 1⟩
  intensity := 1
  cascadeLevels := splits
  lightSpaceMatrices := []

/-- A light view that permutes the axes and translates. -/
def sampleLightView : Mat4 :=
  ⟨⟨0, 1, 0, 0⟩, ⟨0, 0, 1, 0⟩, ⟨1, 0, 0, 0⟩, ⟨2, -1, 3, 1⟩⟩

/-- The 8 corners of a frustum slice: near face at `z = -1` with half width 1,
far face at `z = -5` with half width 5, in the order of `getFrustumCornersWS`. -/
def sampleCorners : List Vec4 :=
  [⟨-1, -1, -1, 1⟩, ⟨-5, -5, -5, 1⟩, ⟨-1, 1, -1, 1⟩, ⟨-5, 5, -5, 1⟩,
   ⟨1, -1, -1, 1⟩, ⟨5, -5, -5, 1⟩, ⟨1, 1, -1, 1⟩, ⟨5, 5, -5, 1⟩]

/-- A scene with one directional light (splits 50 and 150), one drawable and
no sky background. -/
def sampleScene : Scene where
  m_Entities := [⟨some ⟨7⟩, none, none⟩]
  m_DirectionalLight := some (sampleLight [50, 150])

/-- A view whose active camera is the sample camera. -/
def sampleView : SceneView where
  ActiveCamera := fun _ => sampleCamera

/-- A color source at the origin with radius 3, not yet initialised. -/
def sampleColorSource : ColorSource where
  position := ⟨0, 0, 0⟩
  radius := 3
  active := true

/-- Object names handed out by OpenGL during `initialize`. -/
def sampleNames : GLNames where
  dummyVAO := 1
  FBO := 1
  rawTexture := 1
  saturationMask := 2
  depthStencilTexture := 3
  finalTexture := 4
  shadowFBO := 2
  shadowDepth := 5
  forwardShader := ⟨1⟩
  postprocessShader := ⟨2⟩
  shadowCSMShader := ⟨3⟩

/-- An assimp material whose only texture is the diffuse map `missing.png`. -/
def sampleAiMaterial : aiMaterial where
  name := "wall"
  baseColor := none
  colorDiffuse := none
  metallicFactor := none
  specularFactor := none
  roughnessFactor := none
  glossinessFactor := none
  texturePaths := fun t =>
    match t with
    | aiTextureType.DIFFUSE => ["missing.png"]
    | _ => []

/-- An assimp material without textures. -/
def plainAiMaterial : aiMaterial where
  name := "plain"
  baseColor := none
  colorDiffuse := none
  metallicFactor := none
  specularFactor := none
  roughnessFactor := none
  glossinessFactor := none
  texturePaths := fun _ => []

/-- A model before any material is loaded. -/
def sampleModel : Model where
  m_Directory := "assets"
  textures := []
  materials := []
  nextTextureName := 1
  calls := []
  log := []

/-- A value for `new Material()`. -/
def sampleNewMaterial : Material where
  m_Albedo := ⟨1, 1, 1⟩
  m_Metallic := 0
  m_Roughness := 1
  m_AlbedoTexture := none
  m_MetallicTexture := none
  m_RoughnessTexture := none
  m_AmbientTexture := none
  m_NormalMap := none
  m_BumpMap := none
  m_UseAlbedoMap := false
  m_UseMetallicMap := false
  m_UseRoughnessMap := false
  m_UseAmbientMap := false
  m_UseNormalMap := false
  m_UseBumpMap := false

/-- An image decoder for which every file fails to load. -/
def failingLoad : String → Option Image := fun _ => none

/-- A sky box whose cubemap-sampling program has the name 9. -/
def sampleSkyBox : SkyBox where
  skyboxShader := ⟨9⟩
  skyboxVAO := 3
  cubeMapTexture := 4

/-- The sample scene with a sky background entity added. -/
def sampleSkyScene : Scene where
  m_Entities := [⟨some ⟨7⟩, none, none⟩, ⟨none, some sampleSkyBox, none⟩]
  m_DirectionalLight := some (sampleLight [50, 150])

/-- A context at entry: full-window viewport, back-face culling, depth write
and depth test on, comparison "less", no program in use. -/
def sampleGLState : GLState where
  viewport := (0, 0, 1280, 720)
  cullFace := Face.back
  depthMask := true
  depthTest := true
  depthFunc := DepthFunc.less
  program := 0

/-- An object draw that sets uniforms through the `Shader` methods and so
leaves no program in use; it touches nothing else of the context. -/
def sampleDrawEffect : DrawEffect := fun _ _ _ _ st => { st with program := 0 }

/-- The adjugate of a matrix by 2x2 sub-determinants, column by column; the
inverse is the adjugate over the determinant. -/
def Mat4.adjugate (m : Mat4) : Mat4 :=
  let coef00 := m.c2.z * m.c3.w - m.c3.z * m.c2.w
  let coef02 := m.c1.z * m.c3.w - m.c3.z * m.c1.w
  let coef03 := m.c1.z * m.c2.w - m.c2.z * m.c1.w
  let coef04 := m.c2.y * m.c3.w - m.c3.y * m.c2.w
  let coef06 := m.c1.y * m.c3.w - m.c3.y * m.c1.w
  let coef07 := m.c1.y * m.c2.w - m.c2.y * m.c1.w
  let coef08 := m.c2.y * m.c3.z - m.c3.y * m.c2.z
  let coef10 := m.c1.y * m.c3.z - m.c3.y * m.c1.z
  let coef11 := m.c1.y * m.c2.z - m.c2.y * m.c1.z
  let coef12 := m.c2.x * m.c3.w - m.c3.x * m.c2.w
  let coef14 := m.c1.x * m.c3.w - m.c3.x * m.c1.w
  let coef15 := m.c1.x * m.c2.w - m.c2.x * m.c1.w
  let coef16 := m.c2.x * m.c3.z - m.c3.x * m.c2.z
  let coef18 := m.c1.x * m.c3.z - m.c3.x * m.c1.z
  let coef19 := m.c1.x * m.c2.z - m.c2.x * m.c1.z
  let coef20 := m.c2.x * m.c3.y - m.c3.x * m.c2.y
  let coef22 := m.c1.x * m.c3.y - m.c3.x * m.c1.y
  let coef23 := m.c1.x * m.c2.y - m.c2.x * m.c1.y
  ⟨⟨m.c1.y * coef00 - m.c1.z * coef04 + m.c1.w * coef08,
    -(m.c0.y * coef00 - m.c0.z * coef04 + m.c0.w * coef08),
    m.c0.y * coef02 - m.c0.z * coef06 + m.c0.w * coef10,
    -(m.c0.y * coef03 - m.c0.z * coef07 + m.c0.w * coef11)⟩,
   ⟨-(m.c1.x * coef00 - m.c1.z * coef12 + m.c1.w * coef16),
    m.c0.x * coef00 - m.c0.z * coef12 + m.c0.w * coef16,
    -(m.c0.x * coef02 - m.c0.z * coef14 + m.c0.w * coef18),
    m.c0.x * coef03 - m.c0.z * coef15 + m.c0.w * coef19⟩,
   ⟨m.c1.x * coef04 - m.c1.y * coef12 + m.c1.w * coef20,
    -(m.c0.x * coef04 - m.c0.y * coef12 + m.c0.w * coef20),
    m.c0.x * coef06 - m.c0.y * coef14 + m.c0.w * coef22,
    -(m.c0.x * coef07 - m.c0.y * coef15 + m.c0.w * coef23)⟩,
   ⟨-(m.c1.x * coef08 - m.c1.y * coef16 + m.c1.z * coef20),
    m.c0.x * coef08 - m.c0.y * coef16 + m.c0.z * coef20,
    -(m.c0.x * coef10 - m.c0.y * coef18 + m.c0.z * coef22),
    m.c0.x * coef11 - m.c0.y * coef19 + m.c0.z * coef23⟩⟩

/-- The determinant, expanded along the first column with the first row of the
adjugate. -/
def Mat4.det (m : Mat4) : ℚ :=
  m.c0.x * m.adjugate.c0.x + m.c0.y * m.adjugate.c1.x +
  m.c0.z * m.adjugate.c2.x + m.c0.w * m.adjugate.c3.x

/-- Every entry times a scalar, `glm::mat4 * s`. -/
def Mat4.scale (m : Mat4) (s : ℚ) : Mat4 :=
  ⟨m.c0.scale s, m.c1.scale s, m.c2.scale s, m.c3.scale s⟩

/-- The inverse by cofactors: the adjugate times one over the determinant. -/
def Mat4.cofactorInverse (m : Mat4) : Mat4 := m.adjugate.scale (1 / m.det)

/-- The sample library value with an exact matrix inverse. -/
def exactGlm : Glm := { sampleGlm with inverse := Mat4.cofactorInverse }

/-- A camera projection for the closed examples: vertical half-angle tangent
1/2, aspect 2, near 1, far 3, by the `glm::perspective` formula. -/
def samplePerspective : Mat4 :=
  ⟨⟨1, 0, 0, 0⟩, ⟨0, 2, 0, 0⟩, ⟨0, 0, -2, -1⟩, ⟨0, 0, -3, 0⟩⟩

/-- A camera view for the closed examples: the scene moved by (1, -2, -4). -/
def sampleCameraView : Mat4 :=
  ⟨⟨1, 0, 0, 0⟩, ⟨0, 1, 0, 0⟩, ⟨0, 0, 1, 0⟩, ⟨1, -2, -4, 1⟩⟩

/-! ## Theorems -/

/-- Pushing `f i` at the back for `i = 0 .. n-1` yields the list of the `f i`,
provided none of them faults. -/
theorem foldlM_push_range {α : Type} (f : Nat → Option α) (v : Nat → α) (n : Nat)
    (h : ∀ i, i < n → f i = some (v i)) :
    (List.range n).foldlM (fun acc i => (f i).map fun m => acc ++ [m]) [] =
      some ((List.range n).map v) := by
  induction n with
  | zero => rfl
  | succ k ih =>
    have hk : ∀ i, i < k → f i = some (v i) := fun i hi => h i (Nat.lt_succ_of_lt hi)
    rw [List.range_succ, List.foldlM_append, ih hk]
    simp [h k (Nat.lt_succ_self k)]

/-- With at least one split, iteration `i` of the loop of
`getLightSpaceMatrices` pushes the matrix of the specified slice `i`. -/
theorem lightSpaceMatrixAt_eq_spec (g : Glm) (rs : RenderSystem) (light : DirectionalLight)
    (camera : Camera) (hK : 1 ≤ light.cascadeLevels.length) (i : Nat)
    (hi : i < light.cascadeLevels.length + 1) :
    lightSpaceMatrixAt g rs light camera i =
      some (getLightSpaceMatrix g rs light
        (specSliceNear camera.nearPlane light.cascadeLevels i)
        (specSliceFar camera.farPlane light.cascadeLevels i) camera) := by
  unfold lightSpaceMatrixAt specSliceNear specSliceFar
  by_cases h0 : i = 0
  · subst h0
    have hlt : 0 < light.cascadeLevels.length := hK
    simp [hlt, List.getElem?_eq_getElem]
  · by_cases hlt : i < light.cascadeLevels.length
    · have hlt2 : i - 1 < light.cascadeLevels.length := by omega
      simp [h0, hlt, hlt2, List.getElem?_eq_getElem]
    · have hlt2 : i - 1 < light.cascadeLevels.length := by omega
      simp [h0, hlt, hlt2, List.getElem?_eq_getElem]

/-- With at least one split, `getLightSpaceMatrices` returns the matrices of the
specified slices `0 .. K`, in order. -/
theorem getLightSpaceMatrices_eq_spec (g : Glm) (rs : RenderSystem) (light : DirectionalLight)
    (camera : Camera) (hK : 1 ≤ light.cascadeLevels.length) :
    getLightSpaceMatrices g rs light camera =
      some ((List.range (light.cascadeLevels.length + 1)).map (fun i =>
        getLightSpaceMatrix g rs light
          (specSliceNear camera.nearPlane light.cascadeLevels i)
          (specSliceFar camera.farPlane light.cascadeLevels i) camera)) := by
  unfold getLightSpaceMatrices
  exact foldlM_push_range _ _ _ (lightSpaceMatrixAt_eq_spec g rs light camera hK)

/-- C1. For every camera and every split list of length K >= 1,
`getLightSpaceMatrices` returns exactly K+1 transforms, the i-th being
`getLightSpaceMatrix` applied to the specified bounds of slice i
(`[near, split[0]]`, `[split[i-1], split[i]]`, `[split[K-1], far]`); the far
bound of each slice is the near bound of the next, the first near bound is the
camera near distance and the last far bound is the camera far distance. -/
theorem C1_getLightSpaceMatrices_slices (g : Glm) (rs : RenderSystem)
    (light : DirectionalLight) (camera : Camera)
    (hK : 1 ≤ light.cascadeLevels.length) :
    ∃ ms : List Mat4,
      getLightSpaceMatrices g rs light camera = some ms ∧
      ms.length = light.cascadeLevels.length + 1 ∧
      (∀ i, i < light.cascadeLevels.length + 1 →
        ms[i]? = some (getLightSpaceMatrix g rs light
          (specSliceNear camera.nearPlane light.cascadeLevels i)
          (specSliceFar camera.farPlane light.cascadeLevels i) camera)) ∧
      (∀ i, i < light.cascadeLevels.length →
        specSliceFar camera.farPlane light.cascadeLevels i =
          specSliceNear camera.nearPlane light.cascadeLevels (i + 1)) ∧
      specSliceNear camera.nearPlane light.cascadeLevels 0 = camera.nearPlane ∧
      specSliceFar camera.farPlane light.cascadeLevels light.cascadeLevels.length =
        camera.farPlane := by
  refine ⟨(List.range (light.cascadeLevels.length + 1)).map (fun i =>
      getLightSpaceMatrix g rs light
        (specSliceNear camera.nearPlane light.cascadeLevels i)
        (specSliceFar camera.farPlane light.cascadeLevels i) camera), ?_, ?_, ?_, ?_, ?_, ?_⟩
  · exact getLightSpaceMatrices_eq_spec g rs light camera hK
  · simp
  · intro i hi
    simp [List.getElem?_map, List.getElem?_range hi]
  · intro i hi
    simp [specSliceNear, specSliceFar, hi]
  · simp [specSliceNear]
  · simp [specSliceFar]

/-- C1 at splits [25, 75, 200], near 0.1, far 400: four transforms, for the
slices [0.1, 25], [25, 75], [75, 200], [200, 400]. -/
theorem C1_getLightSpaceMatrices_slices_witness :
    1 ≤ (sampleLight [25, 75, 200]).cascadeLevels.length ∧
    (∃ ms : List Mat4,
      getLightSpaceMatrices sampleGlm sampleRenderSystem (sampleLight [25, 75, 200])
        sampleCamera = some ms ∧
      ms.length = (sampleLight [25, 75, 200]).cascadeLevels.length + 1 ∧
      (∀ i, i < (sampleLight [25, 75, 200]).cascadeLevels.length + 1 →
        ms[i]? = some (getLightSpaceMatrix sampleGlm sampleRenderSystem
          (sampleLight [25, 75, 200])
          (specSliceNear sampleCamera.nearPlane (sampleLight [25, 75, 200]).cascadeLevels i)
          (specSliceFar sampleCamera.farPlane (sampleLight [25, 75, 200]).cascadeLevels i)
          sampleCamera)) ∧
      (∀ i, i < (sampleLight [25, 75, 200]).cascadeLevels.length →
        specSliceFar sampleCamera.farPlane (sampleLight [25, 75, 200]).cascadeLevels i =
          specSliceNear sampleCamera.nearPlane (sampleLight [25, 75, 200]).cascadeLevels
            (i + 1)) ∧
      specSliceNear sampleCamera.nearPlane (sampleLight [25, 75, 200]).cascadeLevels 0 =
        sampleCamera.nearPlane ∧
      specSliceFar sampleCamera.farPlane (sampleLight [25, 75, 200]).cascadeLevels
        (sampleLight [25, 75, 200]).cascadeLevels.length = sampleCamera.farPlane) ∧
    (List.range 4).map (fun i =>
      (specSliceNear sampleCamera.nearPlane (sampleLight [25, 75, 200]).cascadeLevels i,
       specSliceFar sampleCamera.farPlane (sampleLight [25, 75, 200]).cascadeLevels i)) =
      [(1 / 10, 25), (25, 75), (75, 200), (200, 400)] :=
  ⟨by decide,
   C1_getLightSpaceMatrices_slices sampleGlm sampleRenderSystem (sampleLight [25, 75, 200])
     sampleCamera (by decide),
   by simp [specSliceNear, specSliceFar, sampleCamera, sampleLight, List.range, List.range.loop]⟩


/-- C2. With an empty split list the first loop iteration of
`getLightSpaceMatrices` reads `cascadeLevels[0]` past the end of the vector:
the call faults instead of returning the single transform of `[near, far]`. -/
theorem C2_empty_splits_read_out_of_range (g : Glm) (rs : RenderSystem) (camera : Camera)
    (direction color : Vec3) (intensity : ℚ) (stored : List Mat4) :
    (([] : List ℚ)[0]? = none) ∧
    lightSpaceMatrixAt g rs ⟨direction, color, intensity, [], stored⟩ camera 0 = none ∧
    getLightSpaceMatrices g rs ⟨direction, color, intensity, [], stored⟩ camera = none := by
  refine ⟨rfl, rfl, ?_⟩
  simp [getLightSpaceMatrices, lightSpaceMatrixAt, List.range, List.range.loop]

/-- The function `std::min` is the minimum of the order of `ℚ`. -/
theorem stdMin_eq_min (a b : ℚ) : stdMin a b = min a b := by
  unfold stdMin
  by_cases h : b < a
  · simp [h, min_eq_right (le_of_lt h)]
  · simp [h, min_eq_left (not_lt.mp h)]

/-- The function `std::max` is the maximum of the order of `ℚ`. -/
theorem stdMax_eq_max (a b : ℚ) : stdMax a b = max a b := by
  unfold stdMax
  by_cases h : a < b
  · simp [h, max_eq_right (le_of_lt h)]
  · simp [h, max_eq_left (not_lt.mp h)]

/-- A running `std::min` is below its start value, below every folded value,
and is the start value or one of the folded values. -/
theorem foldl_stdMin_spec (f : Vec4 → ℚ) (cs : List Vec4) (a0 : ℚ) :
    cs.foldl (fun a c => stdMin a (f c)) a0 ≤ a0 ∧
    (∀ c ∈ cs, cs.foldl (fun a c => stdMin a (f c)) a0 ≤ f c) ∧
    (cs.foldl (fun a c => stdMin a (f c)) a0 = a0 ∨
      ∃ c ∈ cs, f c = cs.foldl (fun a c => stdMin a (f c)) a0) := by
  induction cs generalizing a0 with
  | nil => simp
  | cons c cs ih =>
    obtain ⟨h1, h2, h3⟩ := ih (stdMin a0 (f c))
    have hl : stdMin a0 (f c) ≤ a0 := by rw [stdMin_eq_min]; exact min_le_left _ _
    have hr : stdMin a0 (f c) ≤ f c := by rw [stdMin_eq_min]; exact min_le_right _ _
    refine ⟨le_trans h1 hl, ?_, ?_⟩
    · intro d hd
      rcases List.mem_cons.mp hd with rfl | hd
      · exact le_trans h1 hr
      · exact h2 d hd
    · rcases h3 with h3 | ⟨d, hd, hdv⟩
      · rcases min_choice a0 (f c) with hm | hm
        · left
          simp only [List.foldl_cons]
          rw [h3, stdMin_eq_min, hm]
        · right
          refine ⟨c, List.mem_cons_self _ _, ?_⟩
          simp only [List.foldl_cons]
          rw [h3, stdMin_eq_min, hm]
      · right
        exact ⟨d, List.mem_cons_of_mem _ hd, hdv⟩

/-- A running `std::max` is above its start value, above every folded value,
and is the start value or one of the folded values. -/
theorem foldl_stdMax_spec (f : Vec4 → ℚ) (cs : List Vec4) (a0 : ℚ) :
    a0 ≤ cs.foldl (fun a c => stdMax a (f c)) a0 ∧
    (∀ c ∈ cs, f c ≤ cs.foldl (fun a c => stdMax a (f c)) a0) ∧
    (cs.foldl (fun a c => stdMax a (f c)) a0 = a0 ∨
      ∃ c ∈ cs, f c = cs.foldl (fun a c => stdMax a (f c)) a0) := by
  induction cs generalizing a0 with
  | nil => simp
  | cons c cs ih =>
    obtain ⟨h1, h2, h3⟩ := ih (stdMax a0 (f c))
    have hl : a0 ≤ stdMax a0 (f c) := by rw [stdMax_eq_max]; exact le_max_left _ _
    have hr : f c ≤ stdMax a0 (f c) := by rw [stdMax_eq_max]; exact le_max_right _ _
    refine ⟨le_trans hl h1, ?_, ?_⟩
    · intro d hd
      rcases List.mem_cons.mp hd with rfl | hd
      · exact le_trans hr h1
      · exact h2 d hd
    · rcases h3 with h3 | ⟨d, hd, hdv⟩
      · rcases max_choice a0 (f c) with hm | hm
        · left
          simp only [List.foldl_cons]
          rw [h3, stdMax_eq_max, hm]
        · right
          refine ⟨c, List.mem_cons_self _ _, ?_⟩
          simp only [List.foldl_cons]
          rw [h3, stdMax_eq_max, hm]
      · right
        exact ⟨d, List.mem_cons_of_mem _ hd, hdv⟩

/-- Each bound computed by the bounds loop is the running minimum or maximum
of one coordinate of the transformed corners. -/
theorem foldl_boundsStep_components (lightView : Mat4) (corners : List Vec4) (b0 : Box) :
    (corners.foldl (boundsStep lightView) b0).minX =
      corners.foldl (fun a c => stdMin a (lightView.mulVec c).x) b0.minX ∧
    (corners.foldl (boundsStep lightView) b0).maxX =
      corners.foldl (fun a c => stdMax a (lightView.mulVec c).x) b0.maxX ∧
    (corners.foldl (boundsStep lightView) b0).minY =
      corners.foldl (fun a c => stdMin a (lightView.mulVec c).y) b0.minY ∧
    (corners.foldl (boundsStep lightView) b0).maxY =
      corners.foldl (fun a c => stdMax a (lightView.mulVec c).y) b0.maxY ∧
    (corners.foldl (boundsStep lightView) b0).minZ =
      corners.foldl (fun a c => stdMin a (lightView.mulVec c).z) b0.minZ ∧
    (corners.foldl (boundsStep lightView) b0).maxZ =
      corners.foldl (fun a c => stdMax a (lightView.mulVec c).z) b0.maxZ := by
  induction corners generalizing b0 with
  | nil => simp
  | cons c cs ih =>
    have h := ih (boundsStep lightView b0 c)
    simpa [boundsStep] using h

/-- A running minimum started at `FLT_MAX` over a non-empty list of values not
above `FLT_MAX` is one of the values. -/
theorem foldl_stdMin_attained (f : Vec4 → ℚ) (cs : List Vec4) (hne : cs ≠ [])
    (hfin : ∀ c ∈ cs, f c ≤ FLT_MAX) :
    ∃ c ∈ cs, f c = cs.foldl (fun a c => stdMin a (f c)) FLT_MAX := by
  obtain ⟨_, h2, h3⟩ := foldl_stdMin_spec f cs FLT_MAX
  rcases h3 with h3 | h3
  · obtain ⟨c, hc⟩ := List.exists_mem_of_ne_nil cs hne
    refine ⟨c, hc, le_antisymm ?_ (h2 c hc)⟩
    rw [h3]
    exact hfin c hc
  · exact h3

/-- A running maximum started at `FLT_LOWEST` over a non-empty list of values
not below `FLT_LOWEST` is one of the values. -/
theorem foldl_stdMax_attained (f : Vec4 → ℚ) (cs : List Vec4) (hne : cs ≠ [])
    (hfin : ∀ c ∈ cs, FLT_LOWEST ≤ f c) :
    ∃ c ∈ cs, f c = cs.foldl (fun a c => stdMax a (f c)) FLT_LOWEST := by
  obtain ⟨_, h2, h3⟩ := foldl_stdMax_spec f cs FLT_LOWEST
  rcases h3 with h3 | h3
  · obtain ⟨c, hc⟩ := List.exists_mem_of_ne_nil cs hne
    refine ⟨c, hc, le_antisymm (h2 c hc) ?_⟩
    rw [h3]
    exact hfin c hc
  · exact h3


/-- The function `getFrustumCornersWS` returns 8 corners, so the bounds loop of
`getLightSpaceMatrix` always runs over 8 transformed corners. -/
theorem sliceCorners_length (g : Glm) (rs : RenderSystem) (nearPlane farPlane : ℚ)
    (camera : Camera) : (sliceCorners g rs nearPlane farPlane camera).length = 8 := by
  simp [sliceCorners, getFrustumCornersWS, List.range, List.range.loop]

/-- C3. For 8 frustum corners and a light view matrix whose transformed corner
coordinates are finite `float` values, the box computed by `getLightSpaceMatrix`
before Z padding is the minimal axis-aligned box of the transformed corners:
every transformed corner lies within the bounds on each axis, and each of the
six bounds is the coordinate of some transformed corner. -/
theorem C3_lightViewBounds_minimal_box (lightView : Mat4) (corners : List Vec4)
    (h8 : corners.length = 8)
    (hfin : ∀ c ∈ corners, (lightView.mulVec c).InFloatRange) :
    (∀ c ∈ corners,
      (lightViewBounds lightView corners).minX ≤ (lightView.mulVec c).x ∧
      (lightView.mulVec c).x ≤ (lightViewBounds lightView corners).maxX ∧
      (lightViewBounds lightView corners).minY ≤ (lightView.mulVec c).y ∧
      (lightView.mulVec c).y ≤ (lightViewBounds lightView corners).maxY ∧
      (lightViewBounds lightView corners).minZ ≤ (lightView.mulVec c).z ∧
      (lightView.mulVec c).z ≤ (lightViewBounds lightView corners).maxZ) ∧
    (∃ c ∈ corners, (lightView.mulVec c).x = (lightViewBounds lightView corners).minX) ∧
    (∃ c ∈ corners, (lightView.mulVec c).x = (lightViewBounds lightView corners).maxX) ∧
    (∃ c ∈ corners, (lightView.mulVec c).y = (lightViewBounds lightView corners).minY) ∧
    (∃ c ∈ corners, (lightView.mulVec c).y = (lightViewBounds lightView corners).maxY) ∧
    (∃ c ∈ corners, (lightView.mulVec c).z = (lightViewBounds lightView corners).minZ) ∧
    (∃ c ∈ corners, (lightView.mulVec c).z = (lightViewBounds lightView corners).maxZ) := by
  have hne : corners ≠ [] := by
    intro h
    rw [h] at h8
    simp at h8
  obtain ⟨eminX, emaxX, eminY, emaxY, eminZ, emaxZ⟩ :=
    foldl_boundsStep_components lightView corners
      ⟨FLT_MAX, FLT_LOWEST, FLT_MAX, FLT_LOWEST, FLT_MAX, FLT_LOWEST⟩
  unfold lightViewBounds
  rw [eminX, emaxX, eminY, emaxY, eminZ, emaxZ]
  refine ⟨?_, ?_, ?_, ?_, ?_, ?_, ?_⟩
  · intro c hc
    exact ⟨(foldl_stdMin_spec (fun c => (lightView.mulVec c).x) corners _).2.1 c hc,
      (foldl_stdMax_spec (fun c => (lightView.mulVec c).x) corners _).2.1 c hc,
      (foldl_stdMin_spec (fun c => (lightView.mulVec c).y) corners _).2.1 c hc,
      (foldl_stdMax_spec (fun c => (lightView.mulVec c).y) corners _).2.1 c hc,
      (foldl_stdMin_spec (fun c => (lightView.mulVec c).z) corners _).2.1 c hc,
      (foldl_stdMax_spec (fun c => (lightView.mulVec c).z) corners _).2.1 c hc⟩
  · exact foldl_stdMin_attained (fun c => (lightView.mulVec c).x) corners hne
      (fun c hc => (hfin c hc).1.2)
  · exact foldl_stdMax_attained (fun c => (lightView.mulVec c).x) corners hne
      (fun c hc => (hfin c hc).1.1)
  · exact foldl_stdMin_attained (fun c => (lightView.mulVec c).y) corners hne
      (fun c hc => (hfin c hc).2.1.2)
  · exact foldl_stdMax_attained (fun c => (lightView.mulVec c).y) corners hne
      (fun c hc => (hfin c hc).2.1.1)
  · exact foldl_stdMin_attained (fun c => (lightView.mulVec c).z) corners hne
      (fun c hc => (hfin c hc).2.2.2)
  · exact foldl_stdMax_attained (fun c => (lightView.mulVec c).z) corners hne
      (fun c hc => (hfin c hc).2.2.1)


/-- C3 at the sample corners and light view: the box is
`[-3, 1] x [-6, 4] x [-2, 8]`. -/
theorem C3_lightViewBounds_minimal_box_witness :
    lightViewBounds sampleLightView sampleCorners = ⟨-3, 1, -6, 4, -2, 8⟩ ∧
    sampleCorners.length = 8 ∧
    (∀ c ∈ sampleCorners, (sampleLightView.mulVec c).InFloatRange) ∧
    ((∀ c ∈ sampleCorners,
      (lightViewBounds sampleLightView sampleCorners).minX ≤ (sampleLightView.mulVec c).x ∧
      (sampleLightView.mulVec c).x ≤ (lightViewBounds sampleLightView sampleCorners).maxX ∧
      (lightViewBounds sampleLightView sampleCorners).minY ≤ (sampleLightView.mulVec c).y ∧
      (sampleLightView.mulVec c).y ≤ (lightViewBounds sampleLightView sampleCorners).maxY ∧
      (lightViewBounds sampleLightView sampleCorners).minZ ≤ (sampleLightView.mulVec c).z ∧
      (sampleLightView.mulVec c).z ≤ (lightViewBounds sampleLightView sampleCorners).maxZ) ∧
    (∃ c ∈ sampleCorners,
      (sampleLightView.mulVec c).x = (lightViewBounds sampleLightView sampleCorners).minX) ∧
    (∃ c ∈ sampleCorners,
      (sampleLightView.mulVec c).x = (lightViewBounds sampleLightView sampleCorners).maxX) ∧
    (∃ c ∈ sampleCorners,
      (sampleLightView.mulVec c).y = (lightViewBounds sampleLightView sampleCorners).minY) ∧
    (∃ c ∈ sampleCorners,
      (sampleLightView.mulVec c).y = (lightViewBounds sampleLightView sampleCorners).maxY) ∧
    (∃ c ∈ sampleCorners,
      (sampleLightView.mulVec c).z = (lightViewBounds sampleLightView sampleCorners).minZ) ∧
    (∃ c ∈ sampleCorners,
      (sampleLightView.mulVec c).z = (lightViewBounds sampleLightView sampleCorners).maxZ)) :=
  ⟨by norm_num [lightViewBounds, boundsStep, sampleLightView, sampleCorners, Mat4.mulVec,
      Vec4.add, Vec4.scale, stdMin, stdMax, FLT_MAX, FLT_LOWEST],
   by decide,
   by norm_num [sampleLightView, sampleCorners, Mat4.mulVec, Vec4.add, Vec4.scale,
      Vec4.InFloatRange, InFloatRange, FLT_MAX, FLT_LOWEST],
   C3_lightViewBounds_minimal_box sampleLightView sampleCorners (by decide)
     (by norm_num [sampleLightView, sampleCorners, Mat4.mulVec, Vec4.add, Vec4.scale,
      Vec4.InFloatRange, InFloatRange, FLT_MAX, FLT_LOWEST])⟩


/-- C4. For every fitting factor F, the box that `getLightSpaceMatrix` passes
to the orthographic projection is (minX, maxX, minY, maxY, padMin(minZ),
padMax(maxZ)) of the unpadded bounds, with padMin(z) = z*F if z < 0 else z/F
and padMax(z) = z/F if z < 0 else z*F; the returned matrix is the orthographic
projection of that box times the light view; and a run that differs only in
the fitting factor uses the same X and Y bounds. -/
theorem C4_padding_changes_only_z (g : Glm) (rs : RenderSystem) (light : DirectionalLight)
    (nearPlane farPlane : ℚ) (camera : Camera) (F2 : ℚ) :
    orthoBox g rs light nearPlane farPlane camera =
      { minX := (lightViewBounds
            (sliceLightView g light (sliceCorners g rs nearPlane farPlane camera))
            (sliceCorners g rs nearPlane farPlane camera)).minX,
        maxX := (lightViewBounds
            (sliceLightView g light (sliceCorners g rs nearPlane farPlane camera))
            (sliceCorners g rs nearPlane farPlane camera)).maxX,
        minY := (lightViewBounds
            (sliceLightView g light (sliceCorners g rs nearPlane farPlane camera))
            (sliceCorners g rs nearPlane farPlane camera)).minY,
        maxY := (lightViewBounds
            (sliceLightView g light (sliceCorners g rs nearPlane farPlane camera))
            (sliceCorners g rs nearPlane farPlane camera)).maxY,
        minZ := specPadMin rs.frustum_fitting_factor (lightViewBounds
            (sliceLightView g light (sliceCorners g rs nearPlane farPlane camera))
            (sliceCorners g rs nearPlane farPlane camera)).minZ,
        maxZ := specPadMax rs.frustum_fitting_factor (lightViewBounds
            (sliceLightView g light (sliceCorners g rs nearPlane farPlane camera))
            (sliceCorners g rs nearPlane farPlane camera)).maxZ } ∧
    getLightSpaceMatrix g rs light nearPlane farPlane camera =
      (g.ortho (orthoBox g rs light nearPlane farPlane camera).minX
          (orthoBox g rs light nearPlane farPlane camera).maxX
          (orthoBox g rs light nearPlane farPlane camera).minY
          (orthoBox g rs light nearPlane farPlane camera).maxY
          (orthoBox g rs light nearPlane farPlane camera).minZ
          (orthoBox g rs light nearPlane farPlane camera).maxZ).mul
        (sliceLightView g light (sliceCorners g rs nearPlane farPlane camera)) ∧
    (orthoBox g { rs with frustum_fitting_factor := F2 } light nearPlane farPlane camera).minX =
      (orthoBox g rs light nearPlane farPlane camera).minX ∧
    (orthoBox g { rs with frustum_fitting_factor := F2 } light nearPlane farPlane camera).maxX =
      (orthoBox g rs light nearPlane farPlane camera).maxX ∧
    (orthoBox g { rs with frustum_fitting_factor := F2 } light nearPlane farPlane camera).minY =
      (orthoBox g rs light nearPlane farPlane camera).minY ∧
    (orthoBox g { rs with frustum_fitting_factor := F2 } light nearPlane farPlane camera).maxY =
      (orthoBox g rs light nearPlane farPlane camera).maxY := by
  refine ⟨rfl, rfl, rfl, rfl, rfl, rfl⟩


/-- The entity loop of `draw`, started from any accumulator: the drawables are
appended in entity order, the sky box is the last one met, and the active
color sources are appended in entity order. -/
theorem foldl_gatherEntity (es : List Entity) (acc : Gathered) :
    (es.foldl gatherEntity acc).modelEntities =
      acc.modelEntities ++ es.filterMap (fun e => e.modelInstance) ∧
    (es.foldl gatherEntity acc).colorSources =
      acc.colorSources ++ (es.filterMap (fun e => e.colorSource)).filter (fun c => c.active) ∧
    (es.foldl gatherEntity acc).skyBox.isSome =
      (acc.skyBox.isSome || es.any (fun e => e.skyBox.isSome)) := by
  induction es generalizing acc with
  | nil => simp
  | cons e es ih =>
    obtain ⟨h1, h2, h3⟩ := ih (gatherEntity acc e)
    simp only [List.foldl_cons]
    rw [h1, h2, h3]
    rcases e with ⟨mi, sb, co⟩
    cases mi <;> cases sb <;> cases co <;> simp [gatherEntity] <;> split <;> simp_all

/-- With a directional light that has at least one split, `draw` completes;
the frame holds the scene with the recomputed transforms and the passes in
the fixed order. -/
theorem draw_completes (g : Glm) (rs : RenderSystem) (scene : Scene) (view : SceneView)
    (cs : ColorSource) (light : DirectionalLight)
    (hl : scene.m_DirectionalLight = some light)
    (hK : 1 ≤ light.cascadeLevels.length) :
    ∃ ms : List Mat4, ∃ frame : Frame,
      getLightSpaceMatrices g rs light (view.ActiveCamera scene) = some ms ∧
      draw g rs scene view cs = some frame ∧
      frame.scene =
        { scene with m_DirectionalLight := some { light with lightSpaceMatrices := ms } } ∧
      frame.passes.map PassRun.pass =
        [Pass.shadow, Pass.lighting] ++
        (if (gather scene).skyBox.isSome then [Pass.environment] else []) ++
        [Pass.postprocess] := by
  obtain ⟨ms, hms⟩ : ∃ ms, getLightSpaceMatrices g rs light (view.ActiveCamera scene) = some ms :=
    ⟨_, getLightSpaceMatrices_eq_spec g rs light (view.ActiveCamera scene) hK⟩
  refine ⟨ms, ?_⟩
  simp only [draw, genShadowPass, lightingPass, hl, hms, Option.bind_some, Option.map_some',
    Option.some_bind]
  refine ⟨_, trivial, rfl, rfl, ?_⟩
  cases (gather scene).skyBox <;> simp

/-- C5. For every scene whose directional light has at least one split, one
call of `draw` completes and invokes the shadow pass once, then the lighting
pass once, then the environment pass once if and only if some entity has a
sky box component (not at all otherwise), then the composite pass once. -/
theorem C5_draw_pass_order (g : Glm) (rs : RenderSystem) (scene : Scene) (view : SceneView)
    (cs : ColorSource) (light : DirectionalLight)
    (hl : scene.m_DirectionalLight = some light)
    (hK : 1 ≤ light.cascadeLevels.length) :
    ∃ frame : Frame,
      draw g rs scene view cs = some frame ∧
      frame.passes.map PassRun.pass =
        [Pass.shadow, Pass.lighting] ++
        (if scene.m_Entities.any (fun e => e.skyBox.isSome) then [Pass.environment] else []) ++
        [Pass.postprocess] := by
  obtain ⟨_, frame, _, hdraw, _, hpasses⟩ := draw_completes g rs scene view cs light hl hK
  refine ⟨frame, hdraw, ?_⟩
  rw [hpasses]
  have hsky := (foldl_gatherEntity scene.m_Entities ⟨none, [], []⟩).2.2
  simp only [Option.isSome_none, Bool.false_or] at hsky
  unfold gather
  rw [hsky]

/-- C5 at the scene with one directional light (splits 50 and 150), one
drawable and no sky box: the trace is shadow, lighting, composite. -/
theorem C5_draw_pass_order_witness :
    sampleScene.m_DirectionalLight = some (sampleLight [50, 150]) ∧
    1 ≤ (sampleLight [50, 150]).cascadeLevels.length ∧
    sampleScene.m_Entities.any (fun e => e.skyBox.isSome) = false ∧
    ∃ frame : Frame,
      draw sampleGlm sampleRenderSystem sampleScene sampleView sampleColorSource = some frame ∧
      frame.passes.map PassRun.pass =
        [Pass.shadow, Pass.lighting] ++
        (if sampleScene.m_Entities.any (fun e => e.skyBox.isSome)
          then [Pass.environment] else []) ++
        [Pass.postprocess] :=
  ⟨rfl, by decide, rfl,
   C5_draw_pass_order sampleGlm sampleRenderSystem sampleScene sampleView sampleColorSource
     (sampleLight [50, 150]) rfl (by decide)⟩

/-- The uniforms set by the transform upload loop: `lightSpaceMatrices[i]` for
every index of the list, in order. -/
theorem uniformsSet_setUniformMat4_loop (shader : Shader) (l : List (Nat × Mat4)) :
    uniformsSet (l.flatMap fun im =>
        shader.setUniformMat4 (indexedName "lightSpaceMatrices" im.1 "") im.2) =
      l.map fun im => (indexedName "lightSpaceMatrices" im.1 "", UniformValue.mat4 im.2) := by
  induction l with
  | nil => rfl
  | cons a l ih =>
    unfold uniformsSet at ih ⊢
    simp only [List.flatMap_cons, List.filterMap_append, List.map_cons, ih]
    simp [Shader.setUniformMat4, Shader.bind, Shader.unbind]

/-- The shadow depth array allocated by `initialize` has 4 layers, whatever
the light. -/
theorem arrayLayerCounts_initRenderSystem (rs : RenderSystem) (names : GLNames)
    (width height : Int) :
    arrayLayerCounts (initRenderSystem rs names width height).2 = [4] := by
  simp [initRenderSystem, arrayLayerCounts, nearestFilter]

/-- C6, amended. The shadow depth array created by `initialize` always has 4
layers; a light with K >= 1 splits gets K+1 transforms, each uploaded once by
the upload loop of the shadow and lighting passes; so the layer count equals
the transform count exactly when K = 3. -/
theorem C6_shadow_layers_fixed_at_four (g : Glm) (rs : RenderSystem) (names : GLNames)
    (width height : Int) (light : DirectionalLight) (camera : Camera)
    (hK : 1 ≤ light.cascadeLevels.length) :
    arrayLayerCounts (initRenderSystem rs names width height).2 = [4] ∧
    ∃ ms : List Mat4,
      getLightSpaceMatrices g (initRenderSystem rs names width height).1 light camera =
        some ms ∧
      ms.length = light.cascadeLevels.length + 1 ∧
      (∀ shader : Shader,
        (uniformsSet (uploadLightSpaceMatrices shader ms)).length =
          light.cascadeLevels.length + 1) ∧
      (arrayLayerCounts (initRenderSystem rs names width height).2 = [(ms.length : Int)] ↔
        light.cascadeLevels.length = 3) := by
  refine ⟨arrayLayerCounts_initRenderSystem rs names width height, _,
    getLightSpaceMatrices_eq_spec g _ light camera hK, by simp, ?_, ?_⟩
  · intro shader
    unfold uploadLightSpaceMatrices
    rw [uniformsSet_setUniformMat4_loop]
    simp
  · rw [arrayLayerCounts_initRenderSystem]
    simp only [List.length_map, List.length_range, List.cons.injEq, and_true]
    constructor
    · intro h
      omega
    · intro h
      omega

/-- C6, amended, at the sample light with splits 25, 75, 200 (K = 3). -/
theorem C6_shadow_layers_fixed_at_four_witness :
    1 ≤ (sampleLight [25, 75, 200]).cascadeLevels.length ∧
    (arrayLayerCounts (initRenderSystem sampleRenderSystem sampleNames 1280 720).2 = [4] ∧
    ∃ ms : List Mat4,
      getLightSpaceMatrices sampleGlm (initRenderSystem sampleRenderSystem sampleNames 1280 720).1
        (sampleLight [25, 75, 200]) sampleCamera = some ms ∧
      ms.length = (sampleLight [25, 75, 200]).cascadeLevels.length + 1 ∧
      (∀ shader : Shader,
        (uniformsSet (uploadLightSpaceMatrices shader ms)).length =
          (sampleLight [25, 75, 200]).cascadeLevels.length + 1) ∧
      (arrayLayerCounts (initRenderSystem sampleRenderSystem sampleNames 1280 720).2 =
          [(ms.length : Int)] ↔
        (sampleLight [25, 75, 200]).cascadeLevels.length = 3)) :=
  ⟨by decide,
   C6_shadow_layers_fixed_at_four sampleGlm sampleRenderSystem sampleNames 1280 720
     (sampleLight [25, 75, 200]) sampleCamera (by decide)⟩

/-- C6 as stated fails for the light with splits 50 and 150 (K = 2):
`initialize` allocates 4 layers while `getLightSpaceMatrices` produces
K + 1 = 3 transforms. -/
theorem C6_layer_count_counterexample :
    arrayLayerCounts (initRenderSystem sampleRenderSystem sampleNames 1280 720).2 = [4] ∧
    (∃ ms : List Mat4,
      getLightSpaceMatrices sampleGlm (initRenderSystem sampleRenderSystem sampleNames 1280 720).1
        (sampleLight [50, 150]) sampleCamera = some ms ∧ ms.length = 3) ∧
    ¬ (arrayLayerCounts (initRenderSystem sampleRenderSystem sampleNames 1280 720).2 =
        [(((sampleLight [50, 150]).cascadeLevels.length + 1 : Nat) : Int)]) := by
  refine ⟨arrayLayerCounts_initRenderSystem _ _ _ _, ⟨_,
    getLightSpaceMatrices_eq_spec sampleGlm _ (sampleLight [50, 150]) sampleCamera (by decide),
    by simp [sampleLight]⟩, ?_⟩
  rw [arrayLayerCounts_initRenderSystem]
  simp [sampleLight]


/-- The uniforms set by the position/radius loop of the lighting pass, for the
indices of any list: both uniforms of each index, in order. -/
theorem uniformsSet_colorSource_loop (shader : Shader) (cs : ColorSource) (l : List Nat) :
    uniformsSet (l.flatMap fun i =>
        shader.setVec3 (indexedName "colorSources" i ".position") cs.GetPosition ++
        shader.setFloat (indexedName "colorSources" i ".radius") cs.GetRadius) =
      l.flatMap fun i =>
        [(indexedName "colorSources" i ".position", UniformValue.vec3 cs.GetPosition),
         (indexedName "colorSources" i ".radius", UniformValue.float cs.GetRadius)] := by
  induction l with
  | nil => rfl
  | cons a l ih =>
    unfold uniformsSet at ih ⊢
    simp only [List.flatMap_cons, List.filterMap_append, ih]
    simp [Shader.setVec3, Shader.setFloat, Shader.bind, Shader.unbind]

/-- The uniforms set by the color-source block of the lighting pass: position
and radius for every index `0 .. n-1`, then `numColorSources = n`. -/
theorem uniformsSet_uploadColorSources (shader : Shader) (sources : List ColorSource)
    (cs : ColorSource) :
    uniformsSet (uploadColorSources shader sources cs) =
      ((List.range sources.length).flatMap fun i =>
        [(indexedName "colorSources" i ".position", UniformValue.vec3 cs.GetPosition),
         (indexedName "colorSources" i ".radius", UniformValue.float cs.GetRadius)]) ++
      [("numColorSources", UniformValue.int (sources.length : Int))] := by
  unfold uploadColorSources
  have h := uniformsSet_colorSource_loop shader cs (List.range sources.length)
  unfold uniformsSet at h ⊢
  rw [List.filterMap_append, h]
  simp [Shader.setInt, Shader.bind, Shader.unbind]

/-- C7, amended. The lighting pass applies no maximum count: for every list of
n active color sources it sets the position and radius uniforms of every index
0 .. n-1, in index order and nothing else, and then sets `numColorSources`
to n. -/
theorem C7_color_sources_not_truncated (shader : Shader) (sources : List ColorSource)
    (cs : ColorSource) :
    (uniformsSet (uploadColorSources shader sources cs)).map Prod.fst =
      ((List.range sources.length).flatMap fun i =>
        [indexedName "colorSources" i ".position", indexedName "colorSources" i ".radius"]) ++
      ["numColorSources"] ∧
    (uniformsSet (uploadColorSources shader sources cs)).getLast? =
      some ("numColorSources", UniformValue.int (sources.length : Int)) ∧
    (uniformsSet (uploadColorSources shader sources cs)).length = 2 * sources.length + 1 := by
  rw [uniformsSet_uploadColorSources]
  refine ⟨?_, ?_, ?_⟩
  · simp [List.map_flatMap]
  · simp
  · have hlen : ∀ l : List Nat, (l.flatMap fun i =>
        [(indexedName "colorSources" i ".position", UniformValue.vec3 cs.GetPosition),
         (indexedName "colorSources" i ".radius", UniformValue.float cs.GetRadius)]).length =
        2 * l.length := by
      intro l
      induction l with
      | nil => rfl
      | cons a l ih =>
        simp only [List.flatMap_cons, List.length_append, List.length_cons, ih, List.length_nil]
        omega
    rw [List.length_append, hlen, List.length_range]
    rfl

/-- C7 as stated fails: no maximum count M makes the lighting pass set the
uniforms that the specification describes; with M + 1 sources the pass sets
`numColorSources` to M + 1, not to M. -/
theorem C7_no_maximum_count_counterexample :
    ¬ ∃ M : Nat, ∀ (shader : Shader) (sources : List ColorSource) (cs : ColorSource),
      uniformsSet (uploadColorSources shader sources cs) =
        specColorSourceUniforms M sources := by
  rintro ⟨M, h⟩
  have h1 := h ⟨1⟩ (List.replicate (M + 1) sampleColorSource) sampleColorSource
  rw [uniformsSet_uploadColorSources] at h1
  have h2 := congrArg List.getLast? h1
  simp [specColorSourceUniforms] at h2

/-- C8. The color-source list that `draw` hands to the lighting pass is the
list of color-source components whose active flag is true, in entity order;
the drawable list handed to the shadow and lighting passes is the list of all
model-instance components in entity order; a color source that was only
initialised with `Init(radius)` is inactive and is not in the list. -/
theorem C8_gathered_lists (g : Glm) (rs : RenderSystem) (scene : Scene) (view : SceneView)
    (cs c : ColorSource) (r : ℚ) :
    (gather scene).colorSources =
      (scene.m_Entities.filterMap (fun e => e.colorSource)).filter (fun x => x.active) ∧
    (gather scene).modelEntities = scene.m_Entities.filterMap (fun e => e.modelInstance) ∧
    (draw g rs scene view cs).map (fun frame => frame.passes[1]?) =
      (genShadowPass g rs (scene.m_Entities.filterMap (fun e => e.modelInstance))
          scene.m_DirectionalLight (view.ActiveCamera scene)).bind (fun shadow =>
        (lightingPass rs (scene.m_Entities.filterMap (fun e => e.modelInstance))
          (some shadow.1) (view.ActiveCamera scene)
          ((scene.m_Entities.filterMap (fun e => e.colorSource)).filter (fun x => x.active))
          cs).map (fun calls => some (PassRun.mk Pass.lighting calls))) ∧
    (c.Init r).active = false ∧
    c.Init r ∉ (gather scene).colorSources ∧
    (c.Init r).SetActive.active = true := by
  obtain ⟨hm, hc, _⟩ := foldl_gatherEntity scene.m_Entities ⟨none, [], []⟩
  simp only [List.nil_append] at hm hc
  have hm2 : (gather scene).modelEntities =
      scene.m_Entities.filterMap (fun e => e.modelInstance) := hm
  have hc2 : (gather scene).colorSources =
      (scene.m_Entities.filterMap (fun e => e.colorSource)).filter (fun x => x.active) := hc
  refine ⟨hc2, hm2, ?_, rfl, ?_, rfl⟩
  · rw [← hm2, ← hc2]
    simp only [draw]
    cases genShadowPass g rs (gather scene).modelEntities scene.m_DirectionalLight
      (view.ActiveCamera scene) with
    | none => rfl
    | some shadow => simp [lightingPass]
  · rw [hc2]
    intro hmem
    have hact := (List.mem_filter.mp hmem).2
    simp [ColorSource.Init] at hact

/-- The transforms returned by `getLightSpaceMatrices` do not depend on the
transforms stored on the light. -/
theorem getLightSpaceMatrices_ignores_stored (g : Glm) (rs : RenderSystem)
    (light : DirectionalLight) (camera : Camera) (prev : List Mat4) :
    getLightSpaceMatrices g rs { light with lightSpaceMatrices := prev } camera =
      getLightSpaceMatrices g rs light camera := rfl

/-- C9. For every scene whose directional light has at least one split, `draw`
completes and the scene afterwards has the same entities and the same light
direction, color, intensity and split list as before; only the stored
light-space transforms are replaced, by the result of `getLightSpaceMatrices`
for the light and the active camera, which does not depend on the transforms
stored before. -/
theorem C9_draw_only_replaces_transforms (g : Glm) (rs : RenderSystem) (scene : Scene)
    (view : SceneView) (cs : ColorSource) (light : DirectionalLight)
    (hl : scene.m_DirectionalLight = some light)
    (hK : 1 ≤ light.cascadeLevels.length) :
    ∃ ms : List Mat4, ∃ frame : Frame,
      getLightSpaceMatrices g rs light (view.ActiveCamera scene) = some ms ∧
      draw g rs scene view cs = some frame ∧
      frame.scene =
        { m_Entities := scene.m_Entities,
          m_DirectionalLight := some
            { direction := light.direction, color := light.color,
              intensity := light.intensity, cascadeLevels := light.cascadeLevels,
              lightSpaceMatrices := ms } } ∧
      (∀ prev : List Mat4,
        getLightSpaceMatrices g rs { light with lightSpaceMatrices := prev }
          (view.ActiveCamera scene) = some ms) := by
  obtain ⟨ms, frame, hms, hdraw, hscene, _⟩ := draw_completes g rs scene view cs light hl hK
  refine ⟨ms, frame, hms, hdraw, hscene, ?_⟩
  intro prev
  rw [getLightSpaceMatrices_ignores_stored]
  exact hms

/-- C9 at the sample scene: one directional light with splits 50 and 150. -/
theorem C9_draw_only_replaces_transforms_witness :
    sampleScene.m_DirectionalLight = some (sampleLight [50, 150]) ∧
    1 ≤ (sampleLight [50, 150]).cascadeLevels.length ∧
    ∃ ms : List Mat4, ∃ frame : Frame,
      getLightSpaceMatrices sampleGlm sampleRenderSystem (sampleLight [50, 150])
        (sampleView.ActiveCamera sampleScene) = some ms ∧
      draw sampleGlm sampleRenderSystem sampleScene sampleView sampleColorSource = some frame ∧
      frame.scene =
        { m_Entities := sampleScene.m_Entities,
          m_DirectionalLight := some
            { direction := (sampleLight [50, 150]).direction,
              color := (sampleLight [50, 150]).color,
              intensity := (sampleLight [50, 150]).intensity,
              cascadeLevels := (sampleLight [50, 150]).cascadeLevels,
              lightSpaceMatrices := ms } } ∧
      (∀ prev : List Mat4,
        getLightSpaceMatrices sampleGlm sampleRenderSystem
          { sampleLight [50, 150] with lightSpaceMatrices := prev }
          (sampleView.ActiveCamera sampleScene) = some ms) :=
  ⟨rfl, by decide,
   C9_draw_only_replaces_transforms sampleGlm sampleRenderSystem sampleScene sampleView
     sampleColorSource (sampleLight [50, 150]) rfl (by decide)⟩


/-- The function `TextureFromFile` returns the generated texture name whether
or not the file loads, and leaves materials, textures and directory alone. -/
theorem TextureFromFile_spec (load : String → Option Image) (path directory : String)
    (st : Model) :
    (TextureFromFile load path directory st).1 = st.nextTextureName ∧
    (TextureFromFile load path directory st).2.materials = st.materials ∧
    (TextureFromFile load path directory st).2.textures = st.textures ∧
    (TextureFromFile load path directory st).2.m_Directory = st.m_Directory := by
  simp only [TextureFromFile]
  split <;> simp

/-- The function `TextureFromFile` leaves `materials` alone. -/
theorem TextureFromFile_materials (load : String → Option Image) (path directory : String)
    (st : Model) : (TextureFromFile load path directory st).2.materials = st.materials :=
  (TextureFromFile_spec load path directory st).2.1

/-- The function `loadMaterialTexture` returns a non-null handle exactly when
the material names a texture of the type. -/
theorem loadMaterialTexture_isSome (load : String → Option Image) (st : Model)
    (mat : aiMaterial) (type : aiTextureType) (typeName : String) :
    (loadMaterialTexture load st mat type typeName).1.isSome =
      decide (1 ≤ (mat.texturePaths type).length) := by
  unfold loadMaterialTexture
  cases hp : mat.texturePaths type with
  | nil => simp
  | cons str rest =>
    simp only
    split <;> simp

/-- The function `loadMaterialTexture` never touches `materials`. -/
theorem loadMaterialTexture_materials (load : String → Option Image) (st : Model)
    (mat : aiMaterial) (type : aiTextureType) (typeName : String) :
    (loadMaterialTexture load st mat type typeName).2.materials = st.materials := by
  unfold loadMaterialTexture
  cases hp : mat.texturePaths type with
  | nil => simp
  | cons str rest =>
    simp only
    split <;> split_ifs <;> simp [TextureFromFile_materials]

/-- One iteration of `loadMaterials` appends one material, whose six flags say
whether the assimp material names a texture of each type. -/
theorem loadMaterial_spec (load : String → Option Image) (newMaterial : Material) (st : Model)
    (aimaterial : aiMaterial) :
    ∃ m : Material,
      (loadMaterial load newMaterial st aimaterial).materials = st.materials ++ [m] ∧
      m.useFlags = aimaterial.hasTextures := by
  simp only [loadMaterial, loadMaterialTexture_materials]
  refine ⟨_, rfl, ?_⟩
  simp only [Material.useFlags, aiMaterial.hasTextures, List.map_cons, List.map_nil,
    loadMaterialTexture_isSome]

/-- The loop of `loadMaterials` appends one material per assimp material, in
order, with the flags of `loadMaterial_spec`. -/
theorem loadMaterials_spec (load : String → Option Image) (newMaterial : Material)
    (mMaterials : List aiMaterial) (st : Model) :
    ∃ ms : List Material,
      (loadMaterials load newMaterial st mMaterials).materials = st.materials ++ ms ∧
      ms.map Material.useFlags = mMaterials.map aiMaterial.hasTextures := by
  induction mMaterials generalizing st with
  | nil => exact ⟨[], by simp [loadMaterials], rfl⟩
  | cons a rest ih =>
    obtain ⟨m, hm, hflags⟩ := loadMaterial_spec load newMaterial st a
    obtain ⟨ms, hms, hmsflags⟩ := ih (loadMaterial load newMaterial st a)
    refine ⟨m :: ms, ?_, ?_⟩
    · have : loadMaterials load newMaterial st (a :: rest) =
          loadMaterials load newMaterial (loadMaterial load newMaterial st a) rest := rfl
      rw [this, hms, hm]
      simp
    · simp [hflags, hmsflags]

/-- C10, amended. A failed image load does not disable the material slot:
for every image decoder (one that fails included) `loadMaterialTexture`
returns a non-null handle whenever the material names a texture of the type
and null only when it names none, `TextureFromFile` returns the generated
texture name, and `loadMaterials` appends one material per assimp material,
in order, whose six `m_Use...Map` flags only say whether the material names a
texture of each type. -/
theorem C10_failed_load_keeps_slot_enabled (load : String → Option Image)
    (newMaterial : Material) (st : Model) (mMaterials : List aiMaterial) (mat : aiMaterial)
    (type : aiTextureType) (typeName path : String) :
    (TextureFromFile load path st.m_Directory st).1 = st.nextTextureName ∧
    (loadMaterialTexture load st mat type typeName).1.isSome =
      decide (1 ≤ (mat.texturePaths type).length) ∧
    (∃ ms : List Material,
      (loadMaterials load newMaterial st mMaterials).materials = st.materials ++ ms ∧
      ms.length = mMaterials.length ∧
      ms.map Material.useFlags = mMaterials.map aiMaterial.hasTextures) := by
  refine ⟨(TextureFromFile_spec load path _ st).1,
    loadMaterialTexture_isSome load st mat type typeName, ?_⟩
  obtain ⟨ms, hms, hflags⟩ := loadMaterials_spec load newMaterial mMaterials st
  refine ⟨ms, hms, ?_, hflags⟩
  have h := congrArg List.length hflags
  simpa using h

/-- C10 as stated fails: with a decoder for which every file fails to load,
the material whose diffuse map is `missing.png` gets a non-null albedo texture
(the generated name 1) and `m_UseAlbedoMap = true`; a warning is logged and the
material after it is still loaded. -/
theorem C10_failed_load_counterexample :
    failingLoad (sampleModel.m_Directory ++ "/" ++ "missing.png") = none ∧
    (loadMaterialTexture failingLoad sampleModel sampleAiMaterial aiTextureType.DIFFUSE
        "texture_diffuse").1 = some ⟨1, "texture_diffuse", "missing.png"⟩ ∧
    (loadMaterials failingLoad sampleNewMaterial sampleModel
        [sampleAiMaterial, plainAiMaterial]).materials.map (fun m => m.m_UseAlbedoMap) =
      [true, false] ∧
    (loadMaterials failingLoad sampleNewMaterial sampleModel
        [sampleAiMaterial, plainAiMaterial]).log =
      ["Texture failed to load at path: missing.png"] := by
  refine ⟨rfl, ?_, ?_, ?_⟩
  · simp [loadMaterialTexture, sampleAiMaterial, sampleModel, findLoadedTexture,
      TextureFromFile, failingLoad]
  · simp [loadMaterials, loadMaterial, loadMaterialTexture, sampleAiMaterial, plainAiMaterial,
      sampleModel, findLoadedTexture, TextureFromFile, failingLoad]
  · simp [loadMaterials, loadMaterial, loadMaterialTexture, sampleAiMaterial, plainAiMaterial,
      sampleModel, findLoadedTexture, TextureFromFile, failingLoad]


/-- C16. Over exact arithmetic, for every fitting factor F >= 1 the Z padding of
`getLightSpaceMatrix` never shrinks the Z range: the padded lower bound is at
most the unpadded one and the padded upper bound is at least the unpadded one
(X and Y bounds are untouched), so every transformed corner is inside the
padded box on the Z axis. -/
theorem C16_padding_never_shrinks_z (F : ℚ) (hF : 1 ≤ F) (b : Box) (lightView : Mat4)
    (corners : List Vec4) :
    (padZ F b).minZ ≤ b.minZ ∧ b.maxZ ≤ (padZ F b).maxZ ∧
    (∀ c ∈ corners,
      (padZ F (lightViewBounds lightView corners)).minZ ≤ (lightView.mulVec c).z ∧
      (lightView.mulVec c).z ≤ (padZ F (lightViewBounds lightView corners)).maxZ) := by
  have hpos : (0 : ℚ) < F := lt_of_lt_of_le one_pos hF
  have hpad : ∀ b : Box, (padZ F b).minZ ≤ b.minZ ∧ b.maxZ ≤ (padZ F b).maxZ := by
    intro b
    constructor
    · show (if b.minZ < 0 then b.minZ * F else b.minZ / F) ≤ b.minZ
      split_ifs with h
      · nlinarith
      · rw [div_le_iff₀ hpos]
        nlinarith [not_lt.mp h]
    · show b.maxZ ≤ (if b.maxZ < 0 then b.maxZ / F else b.maxZ * F)
      split_ifs with h
      · rw [le_div_iff₀ hpos]
        nlinarith
      · nlinarith [not_lt.mp h]
  refine ⟨(hpad b).1, (hpad b).2, ?_⟩
  intro c hc
  obtain ⟨_, _, _, _, eminZ, emaxZ⟩ :=
    foldl_boundsStep_components lightView corners
      ⟨FLT_MAX, FLT_LOWEST, FLT_MAX, FLT_LOWEST, FLT_MAX, FLT_LOWEST⟩
  have hlo : (lightViewBounds lightView corners).minZ ≤ (lightView.mulVec c).z := by
    unfold lightViewBounds
    rw [eminZ]
    exact (foldl_stdMin_spec (fun c => (lightView.mulVec c).z) corners _).2.1 c hc
  have hhi : (lightView.mulVec c).z ≤ (lightViewBounds lightView corners).maxZ := by
    unfold lightViewBounds
    rw [emaxZ]
    exact (foldl_stdMax_spec (fun c => (lightView.mulVec c).z) corners _).2.1 c hc
  exact ⟨le_trans (hpad _).1 hlo, le_trans hhi (hpad _).2⟩

/-- C16 at the default fitting factor 10 and the sample corners: the Z range
`[-2, 8]` is padded to `[-20, 80]`. -/
theorem C16_padding_never_shrinks_z_witness :
    (1 : ℚ) ≤ 10 ∧
    padZ 10 (lightViewBounds sampleLightView sampleCorners) = ⟨-3, 1, -6, 4, -20, 80⟩ ∧
    ((padZ 10 (lightViewBounds sampleLightView sampleCorners)).minZ ≤
        (lightViewBounds sampleLightView sampleCorners).minZ ∧
      (lightViewBounds sampleLightView sampleCorners).maxZ ≤
        (padZ 10 (lightViewBounds sampleLightView sampleCorners)).maxZ ∧
      (∀ c ∈ sampleCorners,
        (padZ 10 (lightViewBounds sampleLightView sampleCorners)).minZ ≤
          (sampleLightView.mulVec c).z ∧
        (sampleLightView.mulVec c).z ≤
          (padZ 10 (lightViewBounds sampleLightView sampleCorners)).maxZ)) :=
  ⟨by norm_num,
   by norm_num [padZ, lightViewBounds, boundsStep, sampleLightView, sampleCorners, Mat4.mulVec,
      Vec4.add, Vec4.scale, stdMin, stdMax, FLT_MAX, FLT_LOWEST],
   C16_padding_never_shrinks_z 10 (by norm_num)
     (lightViewBounds sampleLightView sampleCorners) sampleLightView sampleCorners⟩


/-- Running a concatenation of call sequences runs them one after the other. -/
theorem GLState.run_append (effect : DrawEffect) (s : GLState) (a b : List GLCall) :
    GLState.run effect s (a ++ b) = GLState.run effect (GLState.run effect s a) b := by
  simp [GLState.run, List.foldl_append]

/-- The contexts of the selected calls of a concatenation. -/
theorem statesAt_append (effect : DrawEffect) (p : GLCall → Bool) (a b : List GLCall)
    (s : GLState) :
    statesAt effect p s (a ++ b) =
      statesAt effect p s a ++ statesAt effect p (GLState.run effect s a) b := by
  induction a generalizing s with
  | nil => rfl
  | cons c cs ih =>
    simp only [List.cons_append, statesAt, GLState.run, List.foldl_cons]
    split
    · simp only [List.cons_append, List.cons.injEq, true_and]
      exact ih _
    · exact ih _

/-- The environment pass leaves the depth write mask as it found it and
returns with the depth test disabled and the comparison "less". -/
theorem run_environmentPass (effect : DrawEffect) (s : GLState) (g : Glm) (rs : RenderSystem)
    (skyBox : SkyBox) (camera : Camera) :
    (GLState.run effect s (environmentPass g rs skyBox camera)).depthMask = s.depthMask ∧
    (GLState.run effect s (environmentPass g rs skyBox camera)).depthTest = false ∧
    (GLState.run effect s (environmentPass g rs skyBox camera)).depthFunc = DepthFunc.less := by
  simp [environmentPass, GLState.run, GLState.apply, Shader.bind, Shader.unbind,
    Shader.setUniformMat4, Shader.setInt]

/-- With a directional light that has at least one split, `draw` completes with
the frame spelled out: the lighting pass ends with `glDepthMask(GL_FALSE)` and
`glDisable(GL_DEPTH_TEST)`, and the environment pass is present exactly when a
sky box was gathered. -/
theorem draw_frame (g : Glm) (rs : RenderSystem) (scene : Scene) (view : SceneView)
    (cs : ColorSource) (light : DirectionalLight)
    (hl : scene.m_DirectionalLight = some light)
    (hK : 1 ≤ light.cascadeLevels.length) :
    ∃ (ms : List Mat4) (shadowCalls lightingCalls : List GLCall),
      draw g rs scene view cs = some
        { scene := { scene with
            m_DirectionalLight := some { light with lightSpaceMatrices := ms } },
          prelude :=
            [GLCall.bindFramebuffer FramebufferTarget.drawFramebuffer rs.FBO,
             GLCall.drawBuffer (Attachment.color 2),
             GLCall.clearColor (1 / 5) (4 / 5) (9 / 10) 1,
             GLCall.clear true false],
          passes :=
            [PassRun.mk Pass.shadow shadowCalls,
             PassRun.mk Pass.lighting
               (lightingCalls ++
                 [GLCall.depthMask false, GLCall.disable Capability.depthTest])] ++
            (match (gather scene).skyBox with
              | some skyBox =>
                [PassRun.mk Pass.environment
                  (environmentPass g rs skyBox (view.ActiveCamera scene))]
              | none => []) ++
            [PassRun.mk Pass.postprocess (postprocessPass rs)] } := by
  have hms := getLightSpaceMatrices_eq_spec g rs light (view.ActiveCamera scene) hK
  simp only [draw, genShadowPass, lightingPass, hl, hms, Option.bind_some, Option.map_some',
    Option.some_bind]
  exact ⟨_, _, _, rfl⟩

/-- C11. For every GL state at entry and every scene on which `draw` runs,
depth write and depth test are both disabled when the lighting pass returns,
and both are still disabled when the composite pass starts, whether or not the
environment pass ran in between. -/
theorem C11_depth_off_from_lighting_to_composite (effect : DrawEffect) (s0 : GLState)
    (g : Glm) (rs : RenderSystem) (scene : Scene) (view : SceneView) (cs : ColorSource)
    (light : DirectionalLight)
    (hl : scene.m_DirectionalLight = some light)
    (hK : 1 ≤ light.cascadeLevels.length) :
    ∃ frame : Frame,
      draw g rs scene view cs = some frame ∧
      (GLState.run effect s0 (frame.callsUpTo Pass.lighting true)).depthMask = false ∧
      (GLState.run effect s0 (frame.callsUpTo Pass.lighting true)).depthTest = false ∧
      (GLState.run effect s0 (frame.callsUpTo Pass.postprocess false)).depthMask = false ∧
      (GLState.run effect s0 (frame.callsUpTo Pass.postprocess false)).depthTest = false := by
  obtain ⟨ms, shadowCalls, lightingCalls, hdraw⟩ := draw_frame g rs scene view cs light hl hK
  refine ⟨_, hdraw, ?_⟩
  cases hsky : (gather scene).skyBox with
  | none =>
    simp [Frame.callsUpTo, GLState.run, GLState.apply, List.foldl_append]
  | some skyBox =>
    have henv := run_environmentPass effect
    simp [Frame.callsUpTo, GLState.run_append, List.takeWhile, List.filter]
    simp [GLState.run, GLState.apply] at henv ⊢
    simp [henv]


/-- C11 at the sample scene with a sky background, so that the environment
pass runs between the lighting pass and the composite pass. -/
theorem C11_depth_off_from_lighting_to_composite_witness :
    sampleSkyScene.m_DirectionalLight = some (sampleLight [50, 150]) ∧
    1 ≤ (sampleLight [50, 150]).cascadeLevels.length ∧
    sampleSkyScene.m_Entities.any (fun e => e.skyBox.isSome) = true ∧
    ∃ frame : Frame,
      draw sampleGlm sampleRenderSystem sampleSkyScene sampleView sampleColorSource =
        some frame ∧
      (GLState.run sampleDrawEffect sampleGLState
        (frame.callsUpTo Pass.lighting true)).depthMask = false ∧
      (GLState.run sampleDrawEffect sampleGLState
        (frame.callsUpTo Pass.lighting true)).depthTest = false ∧
      (GLState.run sampleDrawEffect sampleGLState
        (frame.callsUpTo Pass.postprocess false)).depthMask = false ∧
      (GLState.run sampleDrawEffect sampleGLState
        (frame.callsUpTo Pass.postprocess false)).depthTest = false :=
  ⟨rfl, by decide, rfl,
   C11_depth_off_from_lighting_to_composite sampleDrawEffect sampleGLState sampleGlm
     sampleRenderSystem sampleSkyScene sampleView sampleColorSource (sampleLight [50, 150])
     rfl (by decide)⟩

/-- C13. For every GL state at entry, the environment pass issues its cube
draw exactly once, with the depth test enabled and the comparison
less-or-equal, and returns with the comparison "less". -/
theorem C13_environment_depth_func (effect : DrawEffect) (s0 : GLState) (g : Glm)
    (rs : RenderSystem) (skyBox : SkyBox) (camera : Camera) :
    (statesAt effect GLCall.isCubeDraw s0 (environmentPass g rs skyBox camera)).map
        (fun st => (st.depthTest, st.depthFunc)) = [(true, DepthFunc.lequal)] ∧
    (GLState.run effect s0 (environmentPass g rs skyBox camera)).depthFunc =
      DepthFunc.less := by
  constructor
  · simp [environmentPass, statesAt, GLState.apply, GLCall.isCubeDraw, Shader.bind,
      Shader.unbind, Shader.setUniformMat4, Shader.setInt]
  · exact (run_environmentPass effect s0 g rs skyBox camera).2.2

/-- C14. At the cube draw of the environment pass no program is in use: the
sky box program is bound first, but every set-uniform call that follows ends
with `glUseProgram(0)`, the last of them right before the vertex array is
bound, so the bound program at `glDrawArrays` is 0, not the sky box program. -/
theorem C14_cube_draw_without_program (effect : DrawEffect) (s0 : GLState) (g : Glm)
    (rs : RenderSystem) (skyBox : SkyBox) (camera : Camera) :
    (statesAt effect GLCall.isCubeDraw s0 (environmentPass g rs skyBox camera)).map
        GLState.program = [0] ∧
    (statesAt sampleDrawEffect GLCall.isCubeDraw sampleGLState
        (environmentPass sampleGlm sampleRenderSystem sampleSkyBox sampleCamera)).map
        GLState.program ≠ [sampleSkyBox.skyboxShader.m_ShaderID] := by
  constructor
  · simp [environmentPass, statesAt, GLState.apply, GLCall.isCubeDraw, Shader.bind,
      Shader.unbind, Shader.setUniformMat4, Shader.setInt]
  · simp [environmentPass, statesAt, GLState.apply, GLCall.isCubeDraw, Shader.bind,
      Shader.unbind, Shader.setUniformMat4, Shader.setInt, sampleSkyBox]


/-- Calls issued by the `Shader` methods are no object draws and leave the
viewport and the culled face alone. -/
theorem shaderCalls_keep_viewport (effect : DrawEffect) (calls : List GLCall)
    (h : ∀ c ∈ calls, c.isShaderCall = true) (s : GLState) :
    statesAt effect GLCall.isObjectDraw s calls = [] ∧
    (GLState.run effect s calls).viewport = s.viewport ∧
    (GLState.run effect s calls).cullFace = s.cullFace := by
  induction calls generalizing s with
  | nil => exact ⟨rfl, rfl, rfl⟩
  | cons c cs ih =>
    have hc := h c (List.mem_cons_self _ _)
    have hcs : ∀ d ∈ cs, d.isShaderCall = true := fun d hd => h d (List.mem_cons_of_mem _ hd)
    obtain ⟨h1, h2, h3⟩ := ih hcs (s.apply effect c)
    cases c <;> simp [GLCall.isShaderCall] at hc <;>
      simp [statesAt, GLCall.isObjectDraw, GLState.run, GLState.apply] at h1 h2 h3 ⊢ <;>
      exact ⟨h1, h2, h3⟩

/-- The transform upload loop issues `Shader` calls only. -/
theorem uploadLightSpaceMatrices_shaderCalls (shader : Shader) (ms : List Mat4) :
    ∀ c ∈ uploadLightSpaceMatrices shader ms, c.isShaderCall = true := by
  intro c hc
  simp only [uploadLightSpaceMatrices, List.mem_flatMap] at hc
  obtain ⟨_, _, hc⟩ := hc
  simp [Shader.setUniformMat4, Shader.bind, Shader.unbind] at hc
  rcases hc with rfl | rfl | rfl <;> rfl

/-- Object draws that leave the viewport and the culled face alone are each
issued in a context with the viewport and culled face of the start, and leave
both as they were. -/
theorem objectDraws_keep_viewport (effect : DrawEffect)
    (heff : ∀ obj shader flags bindLocation st,
      (effect obj shader flags bindLocation st).viewport = st.viewport ∧
      (effect obj shader flags bindLocation st).cullFace = st.cullFace)
    (shader : Shader) (flags : RenderFlag) (bindLocation : Nat) (objects : List ModelInstance)
    (s : GLState) :
    (statesAt effect GLCall.isObjectDraw s
      (objects.map fun obj => GLCall.objectDraw obj shader flags bindLocation)).length =
        objects.length ∧
    (∀ st ∈ statesAt effect GLCall.isObjectDraw s
        (objects.map fun obj => GLCall.objectDraw obj shader flags bindLocation),
      st.viewport = s.viewport ∧ st.cullFace = s.cullFace) ∧
    (GLState.run effect s
      (objects.map fun obj => GLCall.objectDraw obj shader flags bindLocation)).viewport =
        s.viewport ∧
    (GLState.run effect s
      (objects.map fun obj => GLCall.objectDraw obj shader flags bindLocation)).cullFace =
        s.cullFace := by
  induction objects generalizing s with
  | nil => simp [statesAt, GLState.run]
  | cons obj rest ih =>
    obtain ⟨h1, h2, h3, h4⟩ := ih (effect obj shader flags bindLocation s)
    obtain ⟨e1, e2⟩ := heff obj shader flags bindLocation s
    simp only [List.map_cons, statesAt, GLCall.isObjectDraw, GLState.apply, if_true,
      List.length_cons, List.mem_cons, GLState.run, List.foldl_cons]
    refine ⟨by rw [h1], ?_, ?_, ?_⟩
    · rintro st (rfl | hst)
      · exact ⟨rfl, rfl⟩
      · obtain ⟨a, b⟩ := h2 st hst
        exact ⟨a.trans e1, b.trans e2⟩
    · exact h3.trans e1
    · exact h4.trans e2

/-- A call sequence of the shape of the shadow pass: a setup that fixes
viewport and culled face, `Shader` calls, one draw per object, and the final
`glCullFace(GL_BACK)` and `glViewport`. -/
theorem setup_draws_restore (effect : DrawEffect)
    (heff : ∀ obj shader flags bindLocation st,
      (effect obj shader flags bindLocation st).viewport = st.viewport ∧
      (effect obj shader flags bindLocation st).cullFace = st.cullFace)
    (s0 : GLState) (setup uploads : List GLCall) (shader : Shader)
    (objects : List ModelInstance) (view : Int × Int × Int × Int) (width height : Int)
    (hsetup : statesAt effect GLCall.isObjectDraw s0 setup = [])
    (hview : (GLState.run effect s0 setup).viewport = view ∧
      (GLState.run effect s0 setup).cullFace = Face.front)
    (huploads : ∀ c ∈ uploads, c.isShaderCall = true) :
    (statesAt effect GLCall.isObjectDraw s0
      (setup ++ uploads ++
        objects.map (fun obj => GLCall.objectDraw obj shader RenderFlag.None 0) ++
        [GLCall.cullFace Face.back, GLCall.viewport 0 0 width height])).length =
      objects.length ∧
    (∀ st ∈ statesAt effect GLCall.isObjectDraw s0
      (setup ++ uploads ++
        objects.map (fun obj => GLCall.objectDraw obj shader RenderFlag.None 0) ++
        [GLCall.cullFace Face.back, GLCall.viewport 0 0 width height]),
      st.viewport = view ∧ st.cullFace = Face.front) ∧
    (GLState.run effect s0
      (setup ++ uploads ++
        objects.map (fun obj => GLCall.objectDraw obj shader RenderFlag.None 0) ++
        [GLCall.cullFace Face.back, GLCall.viewport 0 0 width height])).viewport =
      (0, 0, width, height) ∧
    (GLState.run effect s0
      (setup ++ uploads ++
        objects.map (fun obj => GLCall.objectDraw obj shader RenderFlag.None 0) ++
        [GLCall.cullFace Face.back, GLCall.viewport 0 0 width height])).cullFace =
      Face.back := by
  obtain ⟨u1, u2, u3⟩ := shaderCalls_keep_viewport effect uploads huploads
    (GLState.run effect s0 setup)
  obtain ⟨d1, d2, _, _⟩ := objectDraws_keep_viewport effect heff shader RenderFlag.None 0
    objects (GLState.run effect (GLState.run effect s0 setup) uploads)
  have hend : ∀ s : GLState, statesAt effect GLCall.isObjectDraw s
      [GLCall.cullFace Face.back, GLCall.viewport 0 0 width height] = [] := by
    intro s
    simp [statesAt, GLCall.isObjectDraw]
  simp only [statesAt_append, GLState.run_append, hsetup, u1, hend, List.nil_append,
    List.append_nil]
  refine ⟨d1, ?_, ?_, ?_⟩
  · intro st hst
    obtain ⟨a, b⟩ := d2 st hst
    exact ⟨a.trans (u2.trans hview.1), b.trans (u3.trans hview.2)⟩
  · simp [GLState.run, GLState.apply]
  · simp [GLState.run, GLState.apply]

/-- C12. For every GL state at entry, the shadow pass issues one draw per
object, each with the viewport (0, 0, shadowResolution, shadowResolution) and
the culled face FRONT; when the pass returns the viewport is
(0, 0, scwidth, scheight), the output resolution given to `initialize`, and
the culled face is BACK.  An object draw is taken to leave viewport and culled
face alone. -/
theorem C12_shadow_pass_viewport_and_cull (effect : DrawEffect)
    (heff : ∀ obj shader flags bindLocation st,
      (effect obj shader flags bindLocation st).viewport = st.viewport ∧
      (effect obj shader flags bindLocation st).cullFace = st.cullFace)
    (s0 : GLState) (g : Glm) (rs0 : RenderSystem) (names : GLNames) (width height : Int)
    (objects : List ModelInstance) (light : DirectionalLight) (camera : Camera)
    (hK : 1 ≤ light.cascadeLevels.length) :
    ∃ (updated : DirectionalLight) (calls : List GLCall),
      genShadowPass g (initRenderSystem rs0 names width height).1 objects (some light) camera =
        some (updated, calls) ∧
      (statesAt effect GLCall.isObjectDraw s0 calls).length = objects.length ∧
      (∀ st ∈ statesAt effect GLCall.isObjectDraw s0 calls,
        st.viewport = (0, 0, (rs0.shadowResolution : Int), (rs0.shadowResolution : Int)) ∧
        st.cullFace = Face.front) ∧
      (GLState.run effect s0 calls).viewport = (0, 0, width, height) ∧
      (GLState.run effect s0 calls).cullFace = Face.back := by
  have hms := getLightSpaceMatrices_eq_spec g (initRenderSystem rs0 names width height).1
    light camera hK
  simp only [genShadowPass, hms, Option.bind_some, Option.map_some', Option.some_bind]
  refine ⟨_, _, rfl, ?_⟩
  exact setup_draws_restore effect heff s0 _ _ _ objects _ width height
    (by simp [statesAt, GLCall.isObjectDraw, Shader.bind])
    (by simp [GLState.run, GLState.apply, Shader.bind, initRenderSystem])
    (uploadLightSpaceMatrices_shaderCalls _ _)

/-- C12 at the sample render system initialised to 1280 x 720, with two
objects and an object draw that leaves no program in use. -/
theorem C12_shadow_pass_viewport_and_cull_witness :
    (∀ obj shader flags bindLocation st,
      (sampleDrawEffect obj shader flags bindLocation st).viewport = st.viewport ∧
      (sampleDrawEffect obj shader flags bindLocation st).cullFace = st.cullFace) ∧
    1 ≤ (sampleLight [50, 150]).cascadeLevels.length ∧
    ∃ (updated : DirectionalLight) (calls : List GLCall),
      genShadowPass sampleGlm (initRenderSystem sampleRenderSystem sampleNames 1280 720).1
        [⟨7⟩, ⟨8⟩] (some (sampleLight [50, 150])) sampleCamera = some (updated, calls) ∧
      (statesAt sampleDrawEffect GLCall.isObjectDraw sampleGLState calls).length =
        [(⟨7⟩ : ModelInstance), ⟨8⟩].length ∧
      (∀ st ∈ statesAt sampleDrawEffect GLCall.isObjectDraw sampleGLState calls,
        st.viewport = (0, 0, (sampleRenderSystem.shadowResolution : Int),
          (sampleRenderSystem.shadowResolution : Int)) ∧
        st.cullFace = Face.front) ∧
      (GLState.run sampleDrawEffect sampleGLState calls).viewport = (0, 0, 1280, 720) ∧
      (GLState.run sampleDrawEffect sampleGLState calls).cullFace = Face.back :=
  ⟨fun _ _ _ _ _ => ⟨rfl, rfl⟩, by decide,
   C12_shadow_pass_viewport_and_cull sampleDrawEffect (fun _ _ _ _ _ => ⟨rfl, rfl⟩)
     sampleGLState sampleGlm sampleRenderSystem sampleNames 1280 720 [⟨7⟩, ⟨8⟩]
     (sampleLight [50, 150]) sampleCamera (by decide)⟩

/-- A matrix times its adjugate is the determinant times the identity. -/
theorem Mat4.mul_adjugate (m : Mat4) : m.mul m.adjugate = Mat4.identity.scale m.det := by
  rcases m with ⟨⟨a00, a01, a02, a03⟩, ⟨a10, a11, a12, a13⟩, ⟨a20, a21, a22, a23⟩,
    ⟨a30, a31, a32, a33⟩⟩
  simp only [Mat4.mul, Mat4.mulVec, Mat4.scale, Mat4.det, Mat4.adjugate,
    Mat4.identity, Vec4.add, Vec4.scale, Mat4.mk.injEq, Vec4.mk.injEq]
  refine ⟨⟨?_, ?_, ?_, ?_⟩, ⟨?_, ?_, ?_, ?_⟩, ⟨?_, ?_, ?_, ?_⟩, ⟨?_, ?_, ?_, ?_⟩⟩ <;> ring

/-- Scaling the right factor of a matrix product scales the product. -/
theorem Mat4.mul_scale (a b : Mat4) (s : ℚ) : a.mul (b.scale s) = (a.mul b).scale s := by
  simp only [Mat4.mul, Mat4.mulVec, Mat4.scale, Vec4.add, Vec4.scale, Mat4.mk.injEq,
    Vec4.mk.injEq]
  refine ⟨⟨?_, ?_, ?_, ?_⟩, ⟨?_, ?_, ?_, ?_⟩, ⟨?_, ?_, ?_, ?_⟩, ⟨?_, ?_, ?_, ?_⟩⟩ <;> ring

/-- The cofactor inverse is a right inverse of every matrix with non-zero
determinant. -/
theorem Mat4.mul_cofactorInverse (m : Mat4) (hdet : m.det ≠ 0) :
    m.mul m.cofactorInverse = Mat4.identity := by
  rw [Mat4.cofactorInverse, Mat4.mul_scale, Mat4.mul_adjugate]
  simp [Mat4.scale, Mat4.identity, Vec4.scale, hdet]

/-- Applying a product of matrices applies the right factor first. -/
theorem Mat4.mulVec_mul (a b : Mat4) (v : Vec4) :
    (a.mul b).mulVec v = a.mulVec (b.mulVec v) := by
  simp only [Mat4.mul, Mat4.mulVec, Vec4.add, Vec4.scale, Vec4.mk.injEq]
  refine ⟨?_, ?_, ?_, ?_⟩ <;> ring

/-- The identity matrix leaves every vector as it is. -/
theorem Mat4.identity_mulVec (v : Vec4) : Mat4.identity.mulVec v = v := by
  simp [Mat4.identity, Mat4.mulVec, Vec4.add, Vec4.scale]

/-- A matrix applied to a vector divided by a scalar. -/
theorem Mat4.mulVec_divScalar (a : Mat4) (v : Vec4) (s : ℚ) :
    a.mulVec (v.divScalar s) = (a.mulVec v).divScalar s := by
  simp only [Mat4.mulVec, Vec4.add, Vec4.scale, Vec4.divScalar, Vec4.mk.injEq]
  refine ⟨?_, ?_, ?_, ?_⟩ <;> ring

/-- One corner of `getFrustumCornersWS`: if `inv` is a right inverse of `vp` and
the unprojected point `inv * ndc` has non-zero w, then the corner pushed,
`c / c.w`, has w = 1 and is taken by `vp` and the division by w back to `ndc`. -/
theorem unproject_corner (vp inv : Mat4) (hinv : vp.mul inv = Mat4.identity)
    (x y z : ℚ) (hw : (inv.mulVec ⟨x, y, z, 1⟩).w ≠ 0) :
    ((inv.mulVec ⟨x, y, z, 1⟩).divScalar (inv.mulVec ⟨x, y, z, 1⟩).w).w = 1 ∧
    (vp.mulVec ((inv.mulVec ⟨x, y, z, 1⟩).divScalar (inv.mulVec ⟨x, y, z, 1⟩).w)).divScalar
        (vp.mulVec ((inv.mulVec ⟨x, y, z, 1⟩).divScalar (inv.mulVec ⟨x, y, z, 1⟩).w)).w =
      ⟨x, y, z, 1⟩ := by
  have hback : vp.mulVec (inv.mulVec ⟨x, y, z, 1⟩) = ⟨x, y, z, 1⟩ := by
    rw [← Mat4.mulVec_mul, hinv, Mat4.identity_mulVec]
  rw [Mat4.mulVec_divScalar, hback]
  generalize (inv.mulVec ⟨x, y, z, 1⟩) = c at hw
  simp only [Vec4.divScalar, Vec4.mk.injEq]
  refine ⟨div_self hw, ?_, ?_, ?_, ?_⟩ <;> field_simp

/-- C15. Over exact arithmetic, for every projection and view for which
`glm::inverse` returns a right inverse of projection * view and whose
unprojected points all have non-zero w, `getFrustumCornersWS` returns exactly 8
points; the point at index k = 4x + 2y + z (x, y, z in 0, 1) has w = 1 and is
taken by projection * view followed by the division by w to the corner
(2x - 1, 2y - 1, 2z - 1) of normalized device space. -/
theorem C15_frustum_corners_unproject (g : Glm) (projection view : Mat4)
    (hinv : (projection.mul view).mul (g.inverse (projection.mul view)) = Mat4.identity)
    (hw : ∀ x y z : Nat, x < 2 → y < 2 → z < 2 →
      ((g.inverse (projection.mul view)).mulVec
        ⟨2 * (x : ℚ) - 1, 2 * (y : ℚ) - 1, 2 * (z : ℚ) - 1, 1⟩).w ≠ 0) :
    (getFrustumCornersWS g projection view).length = 8 ∧
    ∀ x y z : Nat, x < 2 → y < 2 → z < 2 →
      ∃ p : Vec4,
        (getFrustumCornersWS g projection view)[4 * x + 2 * y + z]? = some p ∧
        p.w = 1 ∧
        ((projection.mul view).mulVec p).divScalar ((projection.mul view).mulVec p).w =
          ⟨2 * (x : ℚ) - 1, 2 * (y : ℚ) - 1, 2 * (z : ℚ) - 1, 1⟩ := by
  constructor
  · simp [getFrustumCornersWS, List.range, List.range.loop]
  · intro x y z hx hy hz
    obtain ⟨h1, h2⟩ := unproject_corner (projection.mul view)
      (g.inverse (projection.mul view)) hinv (2 * (x : ℚ) - 1) (2 * (y : ℚ) - 1)
      (2 * (z : ℚ) - 1) (hw x y z hx hy hz)
    refine ⟨_, ?_, h1, h2⟩
    interval_cases x <;> interval_cases y <;> interval_cases z <;>
      simp [getFrustumCornersWS, List.range, List.range.loop]


/-- C15 at the sample perspective projection and camera view, with the exact
cofactor inverse: the first corner returned is (-2, 3/2, 3, 1). -/
theorem C15_frustum_corners_unproject_witness :
    (samplePerspective.mul sampleCameraView).mul
        (exactGlm.inverse (samplePerspective.mul sampleCameraView)) = Mat4.identity ∧
    (∀ x y z : Nat, x < 2 → y < 2 → z < 2 →
      ((exactGlm.inverse (samplePerspective.mul sampleCameraView)).mulVec
        ⟨2 * (x : ℚ) - 1, 2 * (y : ℚ) - 1, 2 * (z : ℚ) - 1, 1⟩).w ≠ 0) ∧
    (getFrustumCornersWS exactGlm samplePerspective sampleCameraView)[0]? =
      some ⟨-2, 3 / 2, 3, 1⟩ ∧
    ((getFrustumCornersWS exactGlm samplePerspective sampleCameraView).length = 8 ∧
    ∀ x y z : Nat, x < 2 → y < 2 → z < 2 →
      ∃ p : Vec4,
        (getFrustumCornersWS exactGlm samplePerspective sampleCameraView)[4 * x + 2 * y + z]? =
          some p ∧
        p.w = 1 ∧
        ((samplePerspective.mul sampleCameraView).mulVec p).divScalar
            ((samplePerspective.mul sampleCameraView).mulVec p).w =
          ⟨2 * (x : ℚ) - 1, 2 * (y : ℚ) - 1, 2 * (z : ℚ) - 1, 1⟩) :=
  have hdet : (samplePerspective.mul sampleCameraView).det ≠ 0 := by
    norm_num [Mat4.det, Mat4.adjugate, Mat4.mul, Mat4.mulVec, Vec4.add, Vec4.scale,
      samplePerspective, sampleCameraView]
  have hinv : (samplePerspective.mul sampleCameraView).mul
      (exactGlm.inverse (samplePerspective.mul sampleCameraView)) = Mat4.identity :=
    Mat4.mul_cofactorInverse _ hdet
  have hw : ∀ x y z : Nat, x < 2 → y < 2 → z < 2 →
      ((exactGlm.inverse (samplePerspective.mul sampleCameraView)).mulVec
        ⟨2 * (x : ℚ) - 1, 2 * (y : ℚ) - 1, 2 * (z : ℚ) - 1, 1⟩).w ≠ 0 := by
    intro x y z hx hy hz
    interval_cases x <;> interval_cases y <;> interval_cases z <;>
      norm_num [exactGlm, Mat4.cofactorInverse, Mat4.scale, Mat4.det, Mat4.adjugate, Mat4.mul,
        Mat4.mulVec, Vec4.add, Vec4.scale, samplePerspective, sampleCameraView]
  ⟨hinv, hw,
   by norm_num [getFrustumCornersWS, List.range, List.range.loop, exactGlm,
      Mat4.cofactorInverse, Mat4.scale, Mat4.det, Mat4.adjugate, Mat4.mul, Mat4.mulVec,
      Vec4.add, Vec4.scale, Vec4.divScalar, samplePerspective, sampleCameraView],
   C15_frustum_corners_unproject exactGlm samplePerspective sampleCameraView hinv hw⟩


end lei3d
